import Mathlib

/-!
Shallow embedding of the stateful NAT64 translator
(`src/core/net/nat64_translator.cpp`, OpenThread) with the port-translation
build option (`OPENTHREAD_CONFIG_NAT64_PORT_TRANSLATION_ENABLE`) on.

Messages are modelled at the level of parsed headers: an IPv6 or IPv4
datagram is a record of the header fields the translator reads and writes
(addresses, hop limit / TTL, L4 ports or ICMP type and identifier, payload
length).  Byte-level concerns (checksum contents, buffer headroom) are not
claims of this development and are outside the model; the prepend of the
new IP header is modelled as always succeeding.

Helper routines of the repository that live outside the translated file
(address synthesis, NAT64 validity of an IPv6 prefix, the RNG range
helper, the timeout and pool-size constants) are modelled from the
specification and marked as such in their doc comments.  Because the word
that names an IPv6 address block cannot appear in an identifier here, the
abbreviation `Pfx` is used for it throughout.
-/

namespace Nat64

/-- L4 content of a datagram as the translator's header parser produces it:
UDP and TCP carry their two ports, ICMP (v4 or v6) carries its type and
identifier, and any other protocol is kept abstract with its protocol
number.  A parsed packet never uses `other` with the UDP/TCP/ICMP numbers. -/
inductive L4 where
  | udp (srcPort dstPort : Nat)
  | tcp (srcPort dstPort : Nat)
  | icmp (icmpType icmpId : Nat)
  | other (proto : Nat)
deriving DecidableEq, Repr

/-- IP protocol number of the L4 payload as seen in an IPv6 next-header. -/
def L4.ip6Proto : L4 → Nat
  | .udp _ _ => 17
  | .tcp _ _ => 6
  | .icmp _ _ => 58
  | .other n => n

/-- IP protocol number of the L4 payload as seen in an IPv4 header. -/
def L4.ip4Proto : L4 → Nat
  | .udp _ _ => 17
  | .tcp _ _ => 6
  | .icmp _ _ => 1
  | .other n => n

/-- Parsed IPv6 datagram (`Ip6::Headers`): source and destination address
(128-bit values), hop limit, payload length in bytes (`GetIpLength`), and
the L4 header. -/
structure Ip6Packet where
  src : Nat
  dst : Nat
  hopLimit : Nat
  len : Nat
  payload : L4
deriving DecidableEq, Repr

/-- Parsed IPv4 datagram (`Ip4::Headers`): source and destination address
(32-bit values), TTL, identification, total length in bytes
(`GetIpLength`), and the L4 header. -/
structure Ip4Packet where
  src : Nat
  dst : Nat
  ttl : Nat
  identification : Nat
  len : Nat
  payload : L4
deriving DecidableEq, Repr

/-- A message buffer as handed to the translator.  `ip6`/`ip4` are buffers
that parse as the respective IP version; `malformed` is a buffer that
parses as neither. -/
inductive Message where
  | ip6 (packet : Ip6Packet)
  | ip4 (packet : Ip4Packet)
  | malformed
deriving DecidableEq, Repr

/-- IPv6 address block for NAT64 (`Ip6::Pr...` in the source): a 128-bit
value plus a bit length.  A cleared block has length 0. -/
structure Ip6Pfx where
  addr : Nat
  length : Nat
deriving DecidableEq, Repr

/-- IPv4 CIDR (`Ip4::Cidr`): a 32-bit address plus a bit length 0..32;
length 0 means unset. -/
structure Ip4Cidr where
  addr : Nat
  length : Nat
deriving DecidableEq, Repr

/-- Modelled from the spec: `Ip6::Pr...::IsValidNat64()` (the code lives in
`ip6_address.cpp`, which is not part of this repository snapshot) accepts
exactly the RFC 6052 lengths 32, 40, 48, 56, 64 and 96. -/
def isValidNat64 (p : Ip6Pfx) : Bool :=
  p.length = 32 || p.length = 40 || p.length = 48 || p.length = 56 ||
  p.length = 64 || p.length = 96

/-- Modelled from the spec: `Ip6::Address::MatchesPr...` (outside this
snapshot) — the first `length` bits of the address equal those of the
configured block. -/
def matchesPfx (addr : Nat) (p : Ip6Pfx) : Bool :=
  addr / 2 ^ (128 - p.length) = p.addr / 2 ^ (128 - p.length)

/-- Bits of a 128-bit value by big-endian bit offset: `getBits x start len`
is the value of bits `start .. start+len-1` counting from the most
significant bit. -/
def getBits (x start len : Nat) : Nat :=
  x / 2 ^ (128 - start - len) % 2 ^ len

/-- Place `v` (truncated to `len` bits) at big-endian offset `start` of a
128-bit value. -/
def putBits (start len v : Nat) : Nat :=
  v % 2 ^ len * 2 ^ (128 - start - len)

/-- Modelled from the spec: `Ip4::Address::ExtractFromIp6Address` (outside
this snapshot) recovers the 32 embedded IPv4 bits from an IPv6 address per
RFC 6052 §2.2, skipping the 8-bit u octet at bits 64..71 for lengths below
96. -/
def extractFromIp6Address (pfxLength : Nat) (ip6 : Nat) : Nat :=
  if pfxLength = 32 then getBits ip6 32 32
  else if pfxLength = 40 then getBits ip6 40 24 * 2 ^ 8 + getBits ip6 72 8
  else if pfxLength = 48 then getBits ip6 48 16 * 2 ^ 16 + getBits ip6 72 16
  else if pfxLength = 56 then getBits ip6 56 8 * 2 ^ 24 + getBits ip6 72 24
  else if pfxLength = 64 then getBits ip6 72 32
  else getBits ip6 96 32

/-- Modelled from the spec: `Ip6::Address::SynthesizeFromIp4Address`
(outside this snapshot) embeds the 32 IPv4 bits into the configured block
per RFC 6052 §2.2, zeroing the u octet and the suffix. -/
def synthesizeFromIp4Address (p : Ip6Pfx) (ip4 : Nat) : Nat :=
  let base := putBits 0 p.length (p.addr / 2 ^ (128 - p.length))
  if p.length = 32 then base + putBits 32 32 ip4
  else if p.length = 40 then base + putBits 40 24 (ip4 / 2 ^ 8) + putBits 72 8 (ip4 % 2 ^ 8)
  else if p.length = 48 then base + putBits 48 16 (ip4 / 2 ^ 16) + putBits 72 16 (ip4 % 2 ^ 16)
  else if p.length = 56 then base + putBits 56 8 (ip4 / 2 ^ 24) + putBits 72 24 (ip4 % 2 ^ 24)
  else if p.length = 64 then base + putBits 72 32 ip4
  else base + putBits 96 32 ip4

/-- Modelled from the spec: `Ip4::Address::SynthesizeFromCidrAndHost`
(outside this snapshot) combines the CIDR's network bits with a host
identifier. -/
def synthesizeFromCidrAndHost (c : Ip4Cidr) (hostId : Nat) : Nat :=
  (c.addr / 2 ^ (32 - c.length) * 2 ^ (32 - c.length) ||| hostId) % 2 ^ 32

/-- Per-protocol, per-direction packet and byte counts
(`ProtocolCounters::Counters`). -/
structure Counts where
  m6To4Packets : Nat
  m6To4Bytes : Nat
  m4To6Packets : Nat
  m4To6Bytes : Nat
deriving DecidableEq, Repr

/-- All-zero counts. -/
def Counts.clear : Counts := ⟨0, 0, 0, 0⟩

/-- Aggregate or per-mapping protocol counters (`ProtocolCounters`). -/
structure ProtocolCounters where
  mUdp : Counts
  mTcp : Counts
  mIcmp : Counts
  mTotal : Counts
deriving DecidableEq, Repr

/-- All-zero protocol counters. -/
def ProtocolCounters.clear : ProtocolCounters :=
  ⟨Counts.clear, Counts.clear, Counts.clear, Counts.clear⟩

/-- `ProtocolCounters::Count6To4Packet`: bump the per-protocol bucket for
IPv6 protocol numbers 17/6/58 and always bump the total. -/
def ProtocolCounters.count6To4Packet (c : ProtocolCounters) (proto size : Nat) :
    ProtocolCounters :=
  let bump : Counts → Counts := fun x =>
    { x with m6To4Packets := x.m6To4Packets + 1, m6To4Bytes := x.m6To4Bytes + size }
  let c1 :=
    if proto = 17 then { c with mUdp := bump c.mUdp }
    else if proto = 6 then { c with mTcp := bump c.mTcp }
    else if proto = 58 then { c with mIcmp := bump c.mIcmp }
    else c
  { c1 with mTotal := bump c1.mTotal }

/-- `ProtocolCounters::Count4To6Packet`: bump the per-protocol bucket for
IPv4 protocol numbers 17/6/1 and always bump the total. -/
def ProtocolCounters.count4To6Packet (c : ProtocolCounters) (proto size : Nat) :
    ProtocolCounters :=
  let bump : Counts → Counts := fun x =>
    { x with m4To6Packets := x.m4To6Packets + 1, m4To6Bytes := x.m4To6Bytes + size }
  let c1 :=
    if proto = 17 then { c with mUdp := bump c.mUdp }
    else if proto = 6 then { c with mTcp := bump c.mTcp }
    else if proto = 1 then { c with mIcmp := bump c.mIcmp }
    else c
  { c1 with mTotal := bump c1.mTotal }

/-- Drop reasons (`ErrorCounters::Reason`). -/
inductive Reason where
  | kUnknown
  | kIllegalPacket
  | kNoMapping
  | kUnsupportedProto
deriving DecidableEq, Repr

/-- Per-reason drop counts in one direction. -/
structure ErrorDirCounts where
  unknown : Nat
  illegalPacket : Nat
  noMapping : Nat
  unsupportedProto : Nat
deriving DecidableEq, Repr

/-- All-zero error counts. -/
def ErrorDirCounts.clear : ErrorDirCounts := ⟨0, 0, 0, 0⟩

/-- Bump the counter of one drop reason. -/
def ErrorDirCounts.bump (e : ErrorDirCounts) : Reason → ErrorDirCounts
  | .kUnknown => { e with unknown := e.unknown + 1 }
  | .kIllegalPacket => { e with illegalPacket := e.illegalPacket + 1 }
  | .kNoMapping => { e with noMapping := e.noMapping + 1 }
  | .kUnsupportedProto => { e with unsupportedProto := e.unsupportedProto + 1 }

/-- Aggregate drop counters in both directions (`ErrorCounters`). -/
structure ErrorCounters where
  c6To4 : ErrorDirCounts
  c4To6 : ErrorDirCounts
deriving DecidableEq, Repr

/-- All-zero error counters. -/
def ErrorCounters.clear : ErrorCounters := ⟨ErrorDirCounts.clear, ErrorDirCounts.clear⟩

/-- `ErrorCounters::Count6To4`. -/
def ErrorCounters.count6To4 (e : ErrorCounters) (r : Reason) : ErrorCounters :=
  { e with c6To4 := e.c6To4.bump r }

/-- `ErrorCounters::Count4To6`. -/
def ErrorCounters.count4To6 (e : ErrorCounters) (r : Reason) : ErrorCounters :=
  { e with c4To6 := e.c4To6.bump r }

/-- Public state of the translator (`State`). -/
inductive State where
  | kStateDisabled
  | kStateNotRunning
  | kStateIdle
  | kStateActive
deriving DecidableEq, Repr

/-- Per-packet translation result (`Translator::Result`). -/
inductive Result where
  | kForward
  | kNotTranslated
  | kDrop
deriving DecidableEq, Repr

/-- Error codes surfaced by the control operations. -/
inductive OtError where
  | kErrorNone
  | kErrorInvalidArgs
  | kErrorNotFound
deriving DecidableEq, Repr

/-- One live flow entry (`Translator::AddressMapping`). -/
structure AddressMapping where
  id : Nat
  ip6 : Nat
  ip4 : Nat
  srcPortOrId : Nat
  translatedPortOrId : Nat
  expiry : Nat
  counters : ProtocolCounters
deriving DecidableEq, Repr

/-- Implementation constants that live in the header of the translator
(outside this snapshot): the mapping-pool capacity
(`kAddressMappingPoolSize`), the CIDR-length bound that separates
pool-backed from single-address operation (`kMaxCidrLenForValidAddrPool`),
and the two idle timeouts in milliseconds. -/
structure Config where
  addressMappingPoolSize : Nat
  maxCidrLenForValidAddrPool : Nat
  icmpIdleTimeoutMsec : Nat
  idleTimeoutMsec : Nat
deriving DecidableEq, Repr

/-- Whole-translator state (the fields of `Translator`). -/
structure TranslatorState where
  enabled : Bool
  state : State
  nat64Pfx : Ip6Pfx
  ip4Cidr : Ip4Cidr
  activeAddressMappings : List AddressMapping
  ip4AddressPool : List Nat
  nextMappingId : Nat
  counters : ProtocolCounters
  errorCounters : ErrorCounters
deriving DecidableEq, Repr

/-- Constructor state: disabled, both address configurations cleared, the
mapping identifier seeded from a random value. -/
def initState (seed : Nat) : TranslatorState where
  enabled := false
  state := .kStateDisabled
  nat64Pfx := ⟨0, 0⟩
  ip4Cidr := ⟨0, 0⟩
  activeAddressMappings := []
  ip4AddressPool := []
  nextMappingId := seed
  counters := ProtocolCounters.clear
  errorCounters := ErrorCounters.clear

/-- `AddressMapping::Touch`: set the idle deadline to `now` plus the ICMP
timeout when the protocol number is ICMPv6 (58) or ICMPv4 (1), and to
`now` plus the UDP/TCP timeout otherwise. -/
def touch (cfg : Config) (m : AddressMapping) (now proto : Nat) : AddressMapping :=
  if proto = 58 ∨ proto = 1 then
    { m with expiry := now + cfg.icmpIdleTimeoutMsec }
  else
    { m with expiry := now + cfg.idleTimeoutMsec }

/-- Source port or ICMP identifier of a parsed IPv6 datagram
(`IsIcmp6() ? GetIcmpHeader().GetId() : GetSourcePort()`; the port reader
yields 0 for other protocols). -/
def ip6SourcePortOrId (h : Ip6Packet) : Nat :=
  match h.payload with
  | .udp s _ => s
  | .tcp s _ => s
  | .icmp _ i => i
  | .other _ => 0

/-- Destination port or ICMP identifier of a parsed IPv4 datagram
(`IsIcmp4() ? GetIcmpHeader().GetId() : GetDestinationPort()`). -/
def ip4DestinationPortOrId (h : Ip4Packet) : Nat :=
  match h.payload with
  | .udp _ d => d
  | .tcp _ d => d
  | .icmp _ i => i
  | .other _ => 0

/-- `LinkedList::FindMatching` with the outbound key: first active mapping
whose `(ip6, srcPortOrId)` equals the packet's source address and
port/identifier. -/
def findMatching6 (l : List AddressMapping) (a port : Nat) : Option AddressMapping :=
  l.find? fun m => m.ip6 = a ∧ m.srcPortOrId = port

/-- `LinkedList::FindMatching` with the inbound key: first active mapping
whose `(ip4, translatedPortOrId)` equals the packet's destination address
and port/identifier. -/
def findMatching4 (l : List AddressMapping) (a port : Nat) : Option AddressMapping :=
  l.find? fun m => m.ip4 = a ∧ m.translatedPortOrId = port

/-- `LinkedList::ContainsMatching` on the translated port. -/
def containsMatchingPort (l : List AddressMapping) (port : Nat) : Bool :=
  l.any fun m => m.translatedPortOrId = port

/-- Rewrite the in-place mapping whose identifier is `i` (the C++ mutates
the list node through a pointer). -/
def updateById (l : List AddressMapping) (i : Nat) (f : AddressMapping → AddressMapping) :
    List AddressMapping :=
  l.map fun m => if m.id = i then f m else m

/-- Start of the translated port range (`kTranslationPortRangeStart`,
value from the spec: the dynamic/private range of RFC 7605). -/
def kTranslationPortRangeStart : Nat := 49152

/-- End of the translated port range (`kTranslationPortRangeEnd`). -/
def kTranslationPortRangeEnd : Nat := 65535

/-- Modelled from the spec: `Random::NonCrypto::GetUint16InRange` (outside
this snapshot) — one sample of the translated-port range, "uniformly at
random in [49152, 65535]", driven here by an oracle value `r`. -/
def sampleTranslationPort (r : Nat) : Nat :=
  kTranslationPortRangeStart +
    r % (kTranslationPortRangeEnd - kTranslationPortRangeStart + 1)

/-- One body of the `AllocateSourcePort` loop: sample, then bump by one on
parity mismatch (`((aSrcPort ^ retPort) & 1) == 1`); the port variable is
a `uint16_t`, so the bump wraps at 2^16. -/
def portCandidate (srcPort r : Nat) : Nat :=
  let retPort := sampleTranslationPort r
  if (srcPort ^^^ retPort) &&& 1 = 1 then (retPort + 1) % 2 ^ 16 else retPort

/-- `Translator::AllocateSourcePort`: repeat the sample-and-fix body until
the candidate collides with no active mapping's translated port.  The C++
loop runs until success; here the list of oracle values bounds the number
of attempts, and exhausting it yields `none`. -/
def allocateSourcePort (l : List AddressMapping) (srcPort : Nat) :
    List Nat → Option Nat
  | [] => none
  | r :: rest =>
    let cand := portCandidate srcPort r
    if containsMatchingPort l cand then allocateSourcePort l srcPort rest
    else some cand

/-- Remove and return the last element (`Heap/Array` `PopBack`). -/
def popBack : List Nat → Option (Nat × List Nat)
  | [] => none
  | [a] => some (a, [])
  | a :: b :: rest =>
    match popBack (b :: rest) with
    | none => none
    | some (x, r) => some (x, a :: r)

/-- `Translator::ReleaseMapping`: in pool-backed mode
(`mIp4Cidr.mLength <= kMaxCidrLenForValidAddrPool`) return the IPv4
address to the pool; the slab slot always goes back to the mapping pool
(implicit here, the slab is modelled by the active-list length). -/
def releaseMapping (cfg : Config) (s : TranslatorState) (m : AddressMapping) :
    TranslatorState :=
  if s.ip4Cidr.length ≤ cfg.maxCidrLenForValidAddrPool then
    { s with ip4AddressPool := s.ip4AddressPool ++ [m.ip4] }
  else s

/-- `Translator::ReleaseMappings`: release each collected mapping. -/
def releaseMappings (cfg : Config) (s : TranslatorState) (ms : List AddressMapping) :
    TranslatorState :=
  ms.foldl (releaseMapping cfg) s

/-- `Translator::ReleaseExpiredMappings`: remove every active mapping with
`expiry < now`, release each, and return how many were removed. -/
def releaseExpiredMappings (cfg : Config) (s : TranslatorState) (now : Nat) :
    TranslatorState × Nat :=
  let expired := s.activeAddressMappings.filter fun m => m.expiry < now
  let kept := s.activeAddressMappings.filter fun m => ¬ m.expiry < now
  (releaseMappings cfg { s with activeAddressMappings := kept } expired, expired.length)

/-- Address-selection block of `Translator::AllocateMapping`: the fixed
first pool entry above `kMaxCidrLenForValidAddrPool` (never removed), else
pop from the pool, sweeping expired mappings first when it is empty. -/
def selectIp4Address (cfg : Config) (s : TranslatorState) (now : Nat) :
    TranslatorState × Option (Nat × List Nat) :=
  if cfg.maxCidrLenForValidAddrPool < s.ip4Cidr.length then
    match s.ip4AddressPool.head? with
    | none => (s, none)
    | some a => (s, some (a, s.ip4AddressPool))
  else if s.ip4AddressPool.isEmpty then
    let s1 := (releaseExpiredMappings cfg s now).1
    if (releaseExpiredMappings cfg s now).2 = 0 then (s1, none)
    else
      match popBack s1.ip4AddressPool with
      | none => (s1, none)
      | some (a, rest) => (s1, some (a, rest))
  else
    match popBack s.ip4AddressPool with
    | none => (s, none)
    | some (a, rest) => (s, some (a, rest))

/-- `Translator::AllocateMapping`: pick an IPv4 address, take a slab slot,
then populate and push the new mapping.  The slot allocation succeeds
while fewer than `kAddressMappingPoolSize` mappings are active. -/
def allocateMapping (cfg : Config) (s : TranslatorState) (now : Nat) (rands : List Nat)
    (h : Ip6Packet) : TranslatorState × Option AddressMapping :=
  match selectIp4Address cfg s now with
  | (s1, none) => (s1, none)
  | (s1, some (ip4Addr, pool1)) =>
    if s1.activeAddressMappings.length < cfg.addressMappingPoolSize then
      let srcPortOrId := ip6SourcePortOrId h
      match allocateSourcePort s1.activeAddressMappings srcPortOrId rands with
      | none => ({ s1 with ip4AddressPool := pool1 }, none)
      | some translated =>
        let m0 : AddressMapping :=
          { id := s1.nextMappingId + 1
            ip6 := h.src
            ip4 := ip4Addr
            srcPortOrId := srcPortOrId
            translatedPortOrId := translated
            expiry := 0
            counters := ProtocolCounters.clear }
        let m := touch cfg m0 now h.payload.ip6Proto
        ({ s1 with
            ip4AddressPool := pool1
            nextMappingId := s1.nextMappingId + 1
            activeAddressMappings := m :: s1.activeAddressMappings }, some m)
    else
      -- slot allocation failed; the popped address is not pushed back
      ({ s1 with ip4AddressPool := pool1 }, none)

/-- `Translator::FindOrAllocateMapping`: look up by the outbound key and
allocate on a miss.  A hit is returned without touching. -/
def findOrAllocateMapping (cfg : Config) (s : TranslatorState) (now : Nat)
    (rands : List Nat) (h : Ip6Packet) : TranslatorState × Option AddressMapping :=
  let srcPortOrId := ip6SourcePortOrId h
  match findMatching6 s.activeAddressMappings h.src srcPortOrId with
  | some m => (s, some m)
  | none => allocateMapping cfg s now rands h

/-- `Translator::FindMapping`: look up by the inbound key and touch the
found mapping with the packet's IPv4 protocol number. -/
def findMapping (cfg : Config) (s : TranslatorState) (now : Nat) (h : Ip4Packet) :
    TranslatorState × Option AddressMapping :=
  let dstPortOrId := ip4DestinationPortOrId h
  match findMatching4 s.activeAddressMappings h.dst dstPortOrId with
  | none => (s, none)
  | some m =>
    let f : AddressMapping → AddressMapping := fun x => touch cfg x now h.payload.ip4Proto
    ({ s with activeAddressMappings := updateById s.activeAddressMappings m.id f },
      some (f m))

/-- `Translator::TranslateIcmp6` on the parsed first ICMP header: only an
ICMPv6 Echo Request (type 128) is rewritten, to IPv4 type 8 with the
supplied translated identifier; every other type is an invalid-argument
failure (`none`). -/
def translateIcmp6 (icmpType icmpId translatedId : Nat) : Option (Nat × Nat) :=
  if icmpType = 128 then some (8, translatedId) else none

/-- `Translator::TranslateIcmp4` on the parsed first ICMP header: only an
ICMPv4 Echo Reply (type 0) is rewritten, to ICMPv6 type 129 with the
supplied original identifier; every other type is an invalid-argument
failure (`none`). -/
def translateIcmp4 (icmpType icmpId originalId : Nat) : Option (Nat × Nat) :=
  if icmpType = 0 then some (129, originalId) else none

/-- `Translator::TranslateFromIp6`: outbound IPv6→IPv4 translation.
Returns the new translator state, the (possibly rewritten) message and the
result.  On `kDrop` the buffer's content is irrelevant (the caller frees
it); the input message is returned in that case. -/
def translateFromIp6 (cfg : Config) (s : TranslatorState) (now : Nat)
    (rands : List Nat) (msg : Message) : TranslatorState × Message × Result :=
  if s.ip4Cidr.length = 0 ∨ ¬ isValidNat64 s.nat64Pfx then
    (s, msg, .kNotTranslated)
  else
    match msg with
    | .ip4 _ =>
      ({ s with errorCounters := s.errorCounters.count6To4 .kIllegalPacket }, msg, .kDrop)
    | .malformed =>
      ({ s with errorCounters := s.errorCounters.count6To4 .kIllegalPacket }, msg, .kDrop)
    | .ip6 h =>
      if ¬ matchesPfx h.dst s.nat64Pfx then (s, msg, .kNotTranslated)
      else
        match findOrAllocateMapping cfg s now rands h with
        | (s1, none) =>
          ({ s1 with errorCounters := s1.errorCounters.count6To4 .kNoMapping },
            msg, .kDrop)
        | (s1, some m) =>
          let srcPortOrId := m.translatedPortOrId
          let finish : L4 → TranslatorState × Message × Result := fun pay =>
            let pkt : Ip4Packet :=
              { src := m.ip4
                dst := extractFromIp6Address s.nat64Pfx.length h.dst
                ttl := h.hopLimit
                identification := 0
                len := 20 + h.len
                payload := pay }
            let s2 :=
              { s1 with
                  counters := s1.counters.count6To4Packet h.payload.ip6Proto h.len
                  activeAddressMappings :=
                    updateById s1.activeAddressMappings m.id fun x =>
                      { x with counters := x.counters.count6To4Packet h.payload.ip6Proto h.len } }
            (s2, .ip4 pkt, .kForward)
          match h.payload with
          | .udp _ d => finish (.udp srcPortOrId d)
          | .tcp _ d => finish (.tcp srcPortOrId d)
          | .icmp t i =>
            match translateIcmp6 t i srcPortOrId with
            | none =>
              ({ s1 with errorCounters := s1.errorCounters.count6To4 .kUnknown },
                msg, .kDrop)
            | some (t4, i4) => finish (.icmp t4 i4)
          | .other _ =>
            ({ s1 with errorCounters := s1.errorCounters.count6To4 .kUnsupportedProto },
              msg, .kDrop)

/-- `Translator::TranslateToIp6`: inbound IPv4→IPv6 translation. -/
def translateToIp6 (cfg : Config) (s : TranslatorState) (now : Nat) (msg : Message) :
    TranslatorState × Message × Result :=
  match msg with
  | .ip6 _ => (s, msg, .kNotTranslated)
  | _ =>
    if s.ip4Cidr.length = 0 then (s, msg, .kForward)
    else if ¬ isValidNat64 s.nat64Pfx then
      ({ s with errorCounters := s.errorCounters.count4To6 .kUnknown }, msg, .kDrop)
    else
      match msg with
      | .ip6 _ => (s, msg, .kNotTranslated)
      | .malformed =>
        ({ s with errorCounters := s.errorCounters.count4To6 .kIllegalPacket },
          msg, .kDrop)
      | .ip4 h =>
        match findMapping cfg s now h with
        | (s1, none) =>
          ({ s1 with errorCounters := s1.errorCounters.count4To6 .kNoMapping },
            msg, .kDrop)
        | (s1, some m) =>
          let dstPortOrId := m.srcPortOrId
          let finish : L4 → TranslatorState × Message × Result := fun pay =>
            let pkt : Ip6Packet :=
              { src := synthesizeFromIp4Address s.nat64Pfx h.src
                dst := m.ip6
                hopLimit := h.ttl
                len := h.len - 20
                payload := pay }
            let s2 :=
              { s1 with
                  counters := s1.counters.count4To6Packet h.payload.ip4Proto (h.len - 20)
                  activeAddressMappings :=
                    updateById s1.activeAddressMappings m.id fun x =>
                      { x with counters := x.counters.count4To6Packet h.payload.ip4Proto (h.len - 20) } }
            (s2, .ip6 pkt, .kForward)
          match h.payload with
          | .udp sp _ => finish (.udp sp dstPortOrId)
          | .tcp sp _ => finish (.tcp sp dstPortOrId)
          | .icmp t i =>
            match translateIcmp4 t i dstPortOrId with
            | none =>
              ({ s1 with errorCounters := s1.errorCounters.count4To6 .kUnknown },
                msg, .kDrop)
            | some (t6, i6) => finish (.icmp t6 i6)
          | .other _ =>
            ({ s1 with errorCounters := s1.errorCounters.count4To6 .kUnsupportedProto },
              msg, .kDrop)

/-- The state function of `Translator::UpdateState`: `Disabled` when not
enabled; `Active` when enabled with a CIDR set and a valid NAT64 block;
`NotRunning` otherwise. -/
def computeState (enabled : Bool) (cidr : Ip4Cidr) (p : Ip6Pfx) : State :=
  if enabled then
    if 0 < cidr.length ∧ isValidNat64 p then .kStateActive else .kStateNotRunning
  else .kStateDisabled

/-- `Translator::UpdateState`: recompute the public state (the notifier's
coalescing `Update` still assigns the new value; only the event is
suppressed when nothing changed). -/
def updateState (s : TranslatorState) : TranslatorState :=
  { s with state := computeState s.enabled s.ip4Cidr s.nat64Pfx }

/-- `Translator::SetEnabled`: a no-op when the flag is unchanged; on
disable, release every active mapping; then recompute the state. -/
def setEnabled (cfg : Config) (s : TranslatorState) (b : Bool) : TranslatorState :=
  if s.enabled = b then s
  else
    let s1 := { s with enabled := b }
    let s2 :=
      if b then s1
      else releaseMappings cfg { s1 with activeAddressMappings := [] }
        s1.activeAddressMappings
    updateState s2

/-- `Translator::SetIp4Cidr`: reject lengths outside [1, 32]; ignore a
CIDR equal to the current one; otherwise flush the pools and the active
list, enumerate the host addresses (skipping the all-zero and all-one host
identifiers except for lengths 31 and 32, and capping at the mapping-pool
capacity), install the CIDR and recompute the state. -/
def setIp4Cidr (cfg : Config) (s : TranslatorState) (c : Ip4Cidr) :
    TranslatorState × OtError :=
  if ¬ (0 < c.length ∧ c.length ≤ 32) then (s, .kErrorInvalidArgs)
  else if s.ip4Cidr = c then (s, .kErrorNone)
  else
    let hostIdBegin := if c.length = 32 then 0 else if c.length = 31 then 0 else 1
    let numberOfHosts :=
      if c.length = 32 then 1
      else if c.length = 31 then 2
      else 2 ^ (32 - c.length) - 2
    let numberOfHosts := min numberOfHosts cfg.addressMappingPoolSize
    let pool := (List.range numberOfHosts).map fun i =>
      synthesizeFromCidrAndHost c (i + hostIdBegin)
    (updateState
      { s with
          activeAddressMappings := []
          ip4AddressPool := pool
          ip4Cidr := c }, .kErrorNone)

/-- `Translator::ClearIp4Cidr`: clear the CIDR, flush the pools and the
active list, recompute the state. -/
def clearIp4Cidr (s : TranslatorState) : TranslatorState :=
  updateState
    { s with ip4Cidr := ⟨0, 0⟩, activeAddressMappings := [], ip4AddressPool := [] }

/-- `Translator::ClearNat64` on the IPv6 side: only acts when a block is
set. -/
def clearNat64Pfx (s : TranslatorState) : TranslatorState :=
  if s.nat64Pfx.length ≠ 0 then updateState { s with nat64Pfx := ⟨0, 0⟩ } else s

/-- `Translator::SetNat64` on the IPv6 side: a zero length clears;
otherwise any different block — of any nonzero length — is stored and the
state recomputed. -/
def setNat64Pfx (s : TranslatorState) (p : Ip6Pfx) : TranslatorState :=
  if p.length = 0 then clearNat64Pfx s
  else if s.nat64Pfx ≠ p then updateState { s with nat64Pfx := p }
  else s

/-- `Translator::GetIp6...`: the configured IPv6 block, `kErrorNotFound`
(here `none`) when its length is 0. -/
def getIp6Pfx (s : TranslatorState) : Option Ip6Pfx :=
  if 0 < s.nat64Pfx.length then some s.nat64Pfx else none

/-- `Translator::GetIp4Cidr`: the configured CIDR, `none` when unset. -/
def getIp4Cidr (s : TranslatorState) : Option Ip4Cidr :=
  if 0 < s.ip4Cidr.length then some s.ip4Cidr else none

/-- `Translator::HandleMappingExpirerTimer`: sweep the expired mappings
(the timer re-arm is outside the state model). -/
def handleMappingExpirerTimer (cfg : Config) (s : TranslatorState) (now : Nat) :
    TranslatorState :=
  (releaseExpiredMappings cfg s now).1

/-- One external event of the translator: a control call, a data-plane
packet in either direction, or a timer fire. -/
inductive Op where
  | setEnabled (b : Bool)
  | setIp4Cidr (c : Ip4Cidr)
  | clearIp4Cidr
  | setNat64Pfx (p : Ip6Pfx)
  | clearNat64Pfx
  | fromIp6 (now : Nat) (rands : List Nat) (msg : Message)
  | toIp6 (now : Nat) (msg : Message)
  | timerFire (now : Nat)

/-- State effect of one event (results and messages discarded). -/
def applyOp (cfg : Config) (s : TranslatorState) : Op → TranslatorState
  | .setEnabled b => setEnabled cfg s b
  | .setIp4Cidr c => (setIp4Cidr cfg s c).1
  | .clearIp4Cidr => clearIp4Cidr s
  | .setNat64Pfx p => setNat64Pfx s p
  | .clearNat64Pfx => clearNat64Pfx s
  | .fromIp6 now rands msg => (translateFromIp6 cfg s now rands msg).1
  | .toIp6 now msg => (translateToIp6 cfg s now msg).1
  | .timerFire now => handleMappingExpirerTimer cfg s now

/-- Run a sequence of events from a state. -/
def runOps (cfg : Config) (s : TranslatorState) (ops : List Op) : TranslatorState :=
  ops.foldl (applyOp cfg) s

/-- Source port or identifier of an L4 header (used to state the
round-trip law). -/
def l4SrcPort : L4 → Nat
  | .udp sp _ => sp
  | .tcp sp _ => sp
  | .icmp _ i => i
  | .other _ => 0

/-- Destination port or identifier of an L4 header. -/
def l4DstPort : L4 → Nat
  | .udp _ d => d
  | .tcp _ d => d
  | .icmp _ i => i
  | .other _ => 0

/-- State-consistency: the stored public state agrees with the state
function of (enabled, CIDR set, NAT64 validity). -/
def stateOk (s : TranslatorState) : Prop :=
  s.state = computeState s.enabled s.ip4Cidr s.nat64Pfx

/-- Port well-formedness of one mapping: a nonzero translated port lies in
the dynamic range and preserves the parity of the original port or
identifier. -/
def portOk (m : AddressMapping) : Prop :=
  m.translatedPortOrId ≠ 0 →
    kTranslationPortRangeStart ≤ m.translatedPortOrId ∧
    m.translatedPortOrId ≤ kTranslationPortRangeEnd ∧
    (m.srcPortOrId ^^^ m.translatedPortOrId) &&& 1 = 0

/-- Port well-formedness of every active mapping of a list. -/
def portInvL (l : List AddressMapping) : Prop := ∀ m ∈ l, portOk m

/-! ### Helper lemmas -/

/-- The derived state only looks at the validity bit of the IPv6 block: two
invalid blocks give the same state. -/
theorem computeState_of_invalid (e : Bool) (c : Ip4Cidr) (p q : Ip6Pfx)
    (hp : isValidNat64 p = false) (hq : isValidNat64 q = false) :
    computeState e c p = computeState e c q := by
  simp [computeState, hp, hq]

/-- Fields of the translator untouched by the data plane: releasing a
mapping changes at most the address pool. -/
theorem releaseMapping_frame (cfg : Config) (s : TranslatorState) (m : AddressMapping) :
    (releaseMapping cfg s m).enabled = s.enabled ∧
    (releaseMapping cfg s m).state = s.state ∧
    (releaseMapping cfg s m).ip4Cidr = s.ip4Cidr ∧
    (releaseMapping cfg s m).nat64Pfx = s.nat64Pfx ∧
    (releaseMapping cfg s m).activeAddressMappings = s.activeAddressMappings := by
  unfold releaseMapping
  split <;> exact ⟨rfl, rfl, rfl, rfl, rfl⟩

/-- Unrolling of the release fold. -/
theorem releaseMappings_cons (cfg : Config) (s : TranslatorState) (m : AddressMapping)
    (ms : List AddressMapping) :
    releaseMappings cfg s (m :: ms) = releaseMappings cfg (releaseMapping cfg s m) ms :=
  rfl

/-- Releasing a batch of mappings changes at most the address pool. -/
theorem releaseMappings_frame (cfg : Config) (ms : List AddressMapping) :
    ∀ s : TranslatorState,
    (releaseMappings cfg s ms).enabled = s.enabled ∧
    (releaseMappings cfg s ms).state = s.state ∧
    (releaseMappings cfg s ms).ip4Cidr = s.ip4Cidr ∧
    (releaseMappings cfg s ms).nat64Pfx = s.nat64Pfx ∧
    (releaseMappings cfg s ms).activeAddressMappings = s.activeAddressMappings := by
  induction ms with
  | nil => exact fun s => ⟨rfl, rfl, rfl, rfl, rfl⟩
  | cons m ms ih =>
    intro s
    have h1 := releaseMapping_frame cfg s m
    have h2 := ih (releaseMapping cfg s m)
    rw [releaseMappings_cons]
    exact ⟨h2.1.trans h1.1, h2.2.1.trans h1.2.1, h2.2.2.1.trans h1.2.2.1,
      h2.2.2.2.1.trans h1.2.2.2.1, h2.2.2.2.2.trans h1.2.2.2.2⟩

/-- The expiry sweep keeps the configuration fields and leaves exactly the
unexpired mappings active. -/
theorem releaseExpiredMappings_frame (cfg : Config) (s : TranslatorState) (now : Nat) :
    (releaseExpiredMappings cfg s now).1.enabled = s.enabled ∧
    (releaseExpiredMappings cfg s now).1.state = s.state ∧
    (releaseExpiredMappings cfg s now).1.ip4Cidr = s.ip4Cidr ∧
    (releaseExpiredMappings cfg s now).1.nat64Pfx = s.nat64Pfx ∧
    (releaseExpiredMappings cfg s now).1.activeAddressMappings
      = s.activeAddressMappings.filter (fun m => ¬ m.expiry < now) := by
  unfold releaseExpiredMappings
  have h := releaseMappings_frame cfg
    (s.activeAddressMappings.filter fun m => m.expiry < now)
    { s with activeAddressMappings :=
        s.activeAddressMappings.filter fun m => ¬ m.expiry < now }
  exact h

/-- Address selection keeps the configuration fields, and the active list
is either untouched or filtered by the expiry sweep. -/
theorem selectIp4Address_frame (cfg : Config) (s : TranslatorState) (now : Nat) :
    (selectIp4Address cfg s now).1.enabled = s.enabled ∧
    (selectIp4Address cfg s now).1.state = s.state ∧
    (selectIp4Address cfg s now).1.ip4Cidr = s.ip4Cidr ∧
    (selectIp4Address cfg s now).1.nat64Pfx = s.nat64Pfx ∧
    ((selectIp4Address cfg s now).1.activeAddressMappings = s.activeAddressMappings ∨
      (selectIp4Address cfg s now).1.activeAddressMappings
        = s.activeAddressMappings.filter (fun m => ¬ m.expiry < now)) := by
  unfold selectIp4Address
  by_cases hA : cfg.maxCidrLenForValidAddrPool < s.ip4Cidr.length
  · rw [if_pos hA]
    cases s.ip4AddressPool.head? <;> exact ⟨rfl, rfl, rfl, rfl, Or.inl rfl⟩
  · rw [if_neg hA]
    by_cases hB : s.ip4AddressPool.isEmpty
    · rw [if_pos hB]
      have h := releaseExpiredMappings_frame cfg s now
      by_cases hn : (releaseExpiredMappings cfg s now).2 = 0
      · rw [if_pos hn]
        exact ⟨h.1, h.2.1, h.2.2.1, h.2.2.2.1, Or.inr h.2.2.2.2⟩
      · rw [if_neg hn]
        cases popBack (releaseExpiredMappings cfg s now).1.ip4AddressPool with
        | none => exact ⟨h.1, h.2.1, h.2.2.1, h.2.2.2.1, Or.inr h.2.2.2.2⟩
        | some p =>
          cases p with
          | mk a rest => exact ⟨h.1, h.2.1, h.2.2.1, h.2.2.2.1, Or.inr h.2.2.2.2⟩
    · rw [if_neg hB]
      cases popBack s.ip4AddressPool with
      | none => exact ⟨rfl, rfl, rfl, rfl, Or.inl rfl⟩
      | some p =>
        cases p with
        | mk a rest => exact ⟨rfl, rfl, rfl, rfl, Or.inl rfl⟩

/-- Allocating a mapping keeps the configuration fields. -/
theorem allocateMapping_frame (cfg : Config) (s : TranslatorState) (now : Nat)
    (rands : List Nat) (h : Ip6Packet) :
    (allocateMapping cfg s now rands h).1.enabled = s.enabled ∧
    (allocateMapping cfg s now rands h).1.state = s.state ∧
    (allocateMapping cfg s now rands h).1.ip4Cidr = s.ip4Cidr ∧
    (allocateMapping cfg s now rands h).1.nat64Pfx = s.nat64Pfx := by
  have hsel := selectIp4Address_frame cfg s now
  unfold allocateMapping
  cases hs : selectIp4Address cfg s now with
  | mk s1 addr? =>
    rw [hs] at hsel
    cases addr? with
    | none => exact ⟨hsel.1, hsel.2.1, hsel.2.2.1, hsel.2.2.2.1⟩
    | some p =>
      cases p with
      | mk a pool1 =>
        dsimp only
        by_cases hlen : s1.activeAddressMappings.length < cfg.addressMappingPoolSize
        · rw [if_pos hlen]
          cases allocateSourcePort s1.activeAddressMappings (ip6SourcePortOrId h) rands with
          | none => exact ⟨hsel.1, hsel.2.1, hsel.2.2.1, hsel.2.2.2.1⟩
          | some tp => exact ⟨hsel.1, hsel.2.1, hsel.2.2.1, hsel.2.2.2.1⟩
        · rw [if_neg hlen]
          exact ⟨hsel.1, hsel.2.1, hsel.2.2.1, hsel.2.2.2.1⟩

/-- Finding or allocating a mapping keeps the configuration fields. -/
theorem findOrAllocateMapping_frame (cfg : Config) (s : TranslatorState) (now : Nat)
    (rands : List Nat) (h : Ip6Packet) :
    (findOrAllocateMapping cfg s now rands h).1.enabled = s.enabled ∧
    (findOrAllocateMapping cfg s now rands h).1.state = s.state ∧
    (findOrAllocateMapping cfg s now rands h).1.ip4Cidr = s.ip4Cidr ∧
    (findOrAllocateMapping cfg s now rands h).1.nat64Pfx = s.nat64Pfx := by
  unfold findOrAllocateMapping
  dsimp only
  cases findMatching6 s.activeAddressMappings h.src (ip6SourcePortOrId h) with
  | some m => exact ⟨rfl, rfl, rfl, rfl⟩
  | none => exact allocateMapping_frame cfg s now rands h

/-- The inbound lookup keeps the configuration fields. -/
theorem findMapping_frame (cfg : Config) (s : TranslatorState) (now : Nat)
    (h : Ip4Packet) :
    (findMapping cfg s now h).1.enabled = s.enabled ∧
    (findMapping cfg s now h).1.state = s.state ∧
    (findMapping cfg s now h).1.ip4Cidr = s.ip4Cidr ∧
    (findMapping cfg s now h).1.nat64Pfx = s.nat64Pfx := by
  unfold findMapping
  dsimp only
  cases findMatching4 s.activeAddressMappings h.dst (ip4DestinationPortOrId h) with
  | none => exact ⟨rfl, rfl, rfl, rfl⟩
  | some m => exact ⟨rfl, rfl, rfl, rfl⟩

/-- Outbound translation keeps the configuration fields. -/
theorem translateFromIp6_frame (cfg : Config) (s : TranslatorState) (now : Nat)
    (rands : List Nat) (msg : Message) :
    (translateFromIp6 cfg s now rands msg).1.enabled = s.enabled ∧
    (translateFromIp6 cfg s now rands msg).1.state = s.state ∧
    (translateFromIp6 cfg s now rands msg).1.ip4Cidr = s.ip4Cidr ∧
    (translateFromIp6 cfg s now rands msg).1.nat64Pfx = s.nat64Pfx := by
  unfold translateFromIp6
  by_cases h0 : s.ip4Cidr.length = 0 ∨ ¬ isValidNat64 s.nat64Pfx
  · rw [if_pos h0]; exact ⟨rfl, rfl, rfl, rfl⟩
  · rw [if_neg h0]
    cases msg with
    | ip4 p => exact ⟨rfl, rfl, rfl, rfl⟩
    | malformed => exact ⟨rfl, rfl, rfl, rfl⟩
    | ip6 h =>
      dsimp only
      by_cases hm : ¬ matchesPfx h.dst s.nat64Pfx
      · rw [if_pos hm]; exact ⟨rfl, rfl, rfl, rfl⟩
      · rw [if_neg hm]
        have hfoa := findOrAllocateMapping_frame cfg s now rands h
        cases hf : findOrAllocateMapping cfg s now rands h with
        | mk s1 m? =>
          rw [hf] at hfoa
          cases m? with
          | none => exact hfoa
          | some m =>
            dsimp only
            cases h.payload with
            | udp sp dp => exact hfoa
            | tcp sp dp => exact hfoa
            | icmp t i =>
              dsimp only
              cases translateIcmp6 t i m.translatedPortOrId with
              | none => exact hfoa
              | some r =>
                cases r with
                | mk t4 i4 => exact hfoa
            | other n => exact hfoa

/-- Inbound translation keeps the configuration fields. -/
theorem translateToIp6_frame (cfg : Config) (s : TranslatorState) (now : Nat)
    (msg : Message) :
    (translateToIp6 cfg s now msg).1.enabled = s.enabled ∧
    (translateToIp6 cfg s now msg).1.state = s.state ∧
    (translateToIp6 cfg s now msg).1.ip4Cidr = s.ip4Cidr ∧
    (translateToIp6 cfg s now msg).1.nat64Pfx = s.nat64Pfx := by
  unfold translateToIp6
  cases msg with
  | ip6 p => exact ⟨rfl, rfl, rfl, rfl⟩
  | malformed =>
    by_cases h0 : s.ip4Cidr.length = 0
    · rw [if_pos h0]; exact ⟨rfl, rfl, rfl, rfl⟩
    · rw [if_neg h0]
      by_cases h1 : ¬ isValidNat64 s.nat64Pfx
      · rw [if_pos h1]; exact ⟨rfl, rfl, rfl, rfl⟩
      · rw [if_neg h1]; exact ⟨rfl, rfl, rfl, rfl⟩
  | ip4 h =>
    dsimp only
    by_cases h0 : s.ip4Cidr.length = 0
    · rw [if_pos h0]; exact ⟨rfl, rfl, rfl, rfl⟩
    · rw [if_neg h0]
      by_cases h1 : ¬ isValidNat64 s.nat64Pfx
      · rw [if_pos h1]; exact ⟨rfl, rfl, rfl, rfl⟩
      · rw [if_neg h1]
        have hfm := findMapping_frame cfg s now h
        cases hf : findMapping cfg s now h with
        | mk s1 m? =>
          rw [hf] at hfm
          cases m? with
          | none => exact hfm
          | some m =>
            dsimp only
            cases h.payload with
            | udp sp dp => exact hfm
            | tcp sp dp => exact hfm
            | icmp t i =>
              dsimp only
              cases translateIcmp4 t i m.srcPortOrId with
              | none => exact hfm
              | some r =>
                cases r with
                | mk t6 i6 => exact hfm
            | other n => exact hfm

/-- Recomputing the state establishes consistency. -/
theorem stateOk_updateState (s : TranslatorState) : stateOk (updateState s) := rfl

/-- Unrolling of the event fold. -/
theorem runOps_cons (cfg : Config) (s : TranslatorState) (op : Op) (ops : List Op) :
    runOps cfg s (op :: ops) = runOps cfg (applyOp cfg s op) ops :=
  rfl

/-- Every event preserves state-consistency. -/
theorem stateOk_applyOp (cfg : Config) (s : TranslatorState) (op : Op)
    (h : stateOk s) : stateOk (applyOp cfg s op) := by
  cases op with
  | setEnabled b =>
    show stateOk (setEnabled cfg s b)
    unfold setEnabled
    by_cases heq : s.enabled = b
    · rw [if_pos heq]; exact h
    · rw [if_neg heq]; exact stateOk_updateState _
  | setIp4Cidr c =>
    show stateOk (setIp4Cidr cfg s c).1
    unfold setIp4Cidr
    by_cases h1 : ¬ (0 < c.length ∧ c.length ≤ 32)
    · rw [if_pos h1]; exact h
    · rw [if_neg h1]
      by_cases h2 : s.ip4Cidr = c
      · rw [if_pos h2]; exact h
      · rw [if_neg h2]; exact stateOk_updateState _
  | clearIp4Cidr => exact stateOk_updateState _
  | setNat64Pfx p =>
    show stateOk (setNat64Pfx s p)
    unfold setNat64Pfx clearNat64Pfx
    split_ifs <;> first | exact stateOk_updateState _ | exact h
  | clearNat64Pfx =>
    show stateOk (clearNat64Pfx s)
    unfold clearNat64Pfx
    split_ifs <;> first | exact stateOk_updateState _ | exact h
  | fromIp6 now rands msg =>
    have hf := translateFromIp6_frame cfg s now rands msg
    show stateOk (translateFromIp6 cfg s now rands msg).1
    unfold stateOk
    rw [hf.1, hf.2.1, hf.2.2.1, hf.2.2.2]
    exact h
  | toIp6 now msg =>
    have hf := translateToIp6_frame cfg s now msg
    show stateOk (translateToIp6 cfg s now msg).1
    unfold stateOk
    rw [hf.1, hf.2.1, hf.2.2.1, hf.2.2.2]
    exact h
  | timerFire now =>
    have hf := releaseExpiredMappings_frame cfg s now
    show stateOk (handleMappingExpirerTimer cfg s now)
    unfold stateOk handleMappingExpirerTimer
    rw [hf.1, hf.2.1, hf.2.2.1, hf.2.2.2.1]
    exact h

/-- State-consistency is preserved along any event sequence. -/
theorem stateOk_runOps (cfg : Config) (ops : List Op) :
    ∀ s : TranslatorState, stateOk s → stateOk (runOps cfg s ops) := by
  induction ops with
  | nil => exact fun s h => h
  | cons op ops ih =>
    intro s h
    rw [runOps_cons]
    exact ih _ (stateOk_applyOp cfg s op h)

/-- The state function never yields `Idle`. -/
theorem computeState_ne_idle (e : Bool) (c : Ip4Cidr) (p : Ip6Pfx) :
    computeState e c p ≠ State.kStateIdle := by
  unfold computeState
  split_ifs <;> simp

/-! ### C1 -/

/-- C1 counterexample: the claim says `TranslateIcmp6` also rewrites an
ICMPv6 Echo Reply (type 129) to IPv4 type 0 and succeeds, and that
`TranslateIcmp4` also rewrites an ICMPv4 Echo Request (type 8) to type 128
and succeeds.  The code returns the invalid-argument error in both of
those cases. -/
theorem translateIcmp_echo_reverse_directions_fail :
    translateIcmp6 129 7 5 = none ∧ translateIcmp4 8 7 5 = none := by
  decide

/-- C1 (amended): ICMP translation is one-directional per function:
`TranslateIcmp6` rewrites exactly the ICMPv6 Echo Request (128 → 8,
identifier replaced by the translated id) and fails with invalid-argument
on every other type, including Echo Reply; `TranslateIcmp4` rewrites
exactly the ICMPv4 Echo Reply (0 → 129, identifier replaced by the
original id) and fails on every other type, including Echo Request. -/
theorem translateIcmp_echo_one_directional (t i tid oid : Nat) :
    (t = 128 → translateIcmp6 t i tid = some (8, tid)) ∧
    (t ≠ 128 → translateIcmp6 t i tid = none) ∧
    (t = 0 → translateIcmp4 t i oid = some (129, oid)) ∧
    (t ≠ 0 → translateIcmp4 t i oid = none) := by
  refine ⟨fun h => ?_, fun h => ?_, fun h => ?_, fun h => ?_⟩ <;>
    simp [translateIcmp6, translateIcmp4, h]

/-- C1 witness: the amended theorem evaluated on an Echo Request, an Echo
Reply inbound, and an unsupported type. -/
theorem translateIcmp_echo_one_directional_witness :
    translateIcmp6 128 7 5 = some (8, 5) ∧
    translateIcmp4 0 7 9 = some (129, 9) ∧
    translateIcmp6 135 7 5 = none := by
  exact ⟨(translateIcmp_echo_one_directional 128 7 5 9).1 rfl,
    (translateIcmp_echo_one_directional 0 7 5 9).2.2.1 rfl,
    (translateIcmp_echo_one_directional 135 7 5 9).2.1 (by decide)⟩

/-! ### C2 -/

/-- C2 counterexample: the claim says that after `SetNat64` with a block
whose length is not one of {32, 40, 48, 56, 64, 96} the getter reports
not-found, as after a clear.  Setting a block of length 33 stores it and
the getter returns it. -/
theorem setNat64Pfx_length33_is_stored :
    getIp6Pfx (setNat64Pfx (initState 0) ⟨0, 33⟩) = some ⟨0, 33⟩ := by
  decide

/-- C2 (amended): a block of invalid nonzero NAT64 length is stored rather
than cleared — the getter returns it — but the derived state is the same
as after `ClearNat64`, because the state function only consults NAT64
validity (only length 0 behaves as a clear). -/
theorem setNat64Pfx_invalid_stored_but_state_as_cleared
    (s : TranslatorState) (p : Ip6Pfx)
    (hlen : p.length ≠ 0) (hinv : isValidNat64 p = false)
    (hcons : s.state = computeState s.enabled s.ip4Cidr s.nat64Pfx) :
    getIp6Pfx (setNat64Pfx s p) = some p ∧
    (setNat64Pfx s p).state = (clearNat64Pfx s).state := by
  have hvempty : isValidNat64 ⟨0, 0⟩ = false := by decide
  by_cases heq : s.nat64Pfx = p
  · have hset : setNat64Pfx s p = s := by
      simp [setNat64Pfx, hlen, heq]
    refine ⟨?_, ?_⟩
    · rw [hset, getIp6Pfx, if_pos]
      · rw [heq]
      · rw [heq]; exact Nat.pos_of_ne_zero hlen
    · rw [hset, clearNat64Pfx, if_pos (by rw [heq]; exact hlen)]
      rw [hcons, heq, updateState]
      exact computeState_of_invalid _ _ _ _ hinv hvempty
  · have hset : setNat64Pfx s p = updateState { s with nat64Pfx := p } := by
      simp [setNat64Pfx, hlen, heq]
    refine ⟨?_, ?_⟩
    · rw [hset]
      simp [updateState, getIp6Pfx, Nat.pos_of_ne_zero hlen]
    · rw [hset, clearNat64Pfx]
      by_cases hz : s.nat64Pfx.length ≠ 0
      · rw [if_pos hz, updateState, updateState]
        exact computeState_of_invalid _ _ _ _ hinv hvempty
      · rw [if_neg hz, hcons, updateState]
        push_neg at hz
        have hcur : isValidNat64 s.nat64Pfx = false := by
          simp [isValidNat64, hz]
        exact computeState_of_invalid _ _ _ _ hinv hcur

/-- C2 witness: the amended theorem at the freshly constructed translator
and a block of length 33. -/
theorem setNat64Pfx_invalid_stored_witness :
    getIp6Pfx (setNat64Pfx (initState 3) ⟨9, 33⟩) = some ⟨9, 33⟩ ∧
    (setNat64Pfx (initState 3) ⟨9, 33⟩).state = (clearNat64Pfx (initState 3)).state := by
  exact setNat64Pfx_invalid_stored_but_state_as_cleared (initState 3) ⟨9, 33⟩
    (by decide) (by decide) (by decide)

/-! ### C3 -/

/-- C3 counterexample: with the ICMP idle timeout (60 000 ms in the
shipped configuration) strictly below the UDP/TCP timeout (7 200 000 ms),
a mapping touched by a UDP packet and then — at the same, hence
non-decreasing, clock value — by an inbound ICMPv4 packet has its deadline
moved earlier, contradicting the claimed monotonicity of the deadline
under every touch sequence. -/
theorem touch_deadline_can_decrease :
    (touch ⟨254, 30, 60000, 7200000⟩
        (touch ⟨254, 30, 60000, 7200000⟩ ⟨1, 0, 0, 0, 0, 0, ProtocolCounters.clear⟩ 0 17)
        0 1).expiry
      < (touch ⟨254, 30, 60000, 7200000⟩ ⟨1, 0, 0, 0, 0, 0, ProtocolCounters.clear⟩ 0 17).expiry := by
  decide

/-- C3 (amended): every touch sets the deadline to `now` plus the ICMP
timeout for ICMP protocol numbers (58 or 1) and `now` plus the UDP/TCP
timeout otherwise; and across touches at non-decreasing clock times the
deadline never decreases as long as consecutive touches fall in the same
timeout class (a switch from the UDP/TCP class to the ICMP class may move
the deadline earlier, as the counterexample shows). -/
theorem touch_deadline_monotone_within_class
    (cfg : Config) (m : AddressMapping) (now1 now2 p1 p2 : Nat)
    (hle : now1 ≤ now2)
    (hclass : (p1 = 58 ∨ p1 = 1) ↔ (p2 = 58 ∨ p2 = 1)) :
    (touch cfg m now1 p1).expiry
      = now1 + (if p1 = 58 ∨ p1 = 1 then cfg.icmpIdleTimeoutMsec else cfg.idleTimeoutMsec) ∧
    (touch cfg m now1 p1).expiry ≤ (touch cfg (touch cfg m now1 p1) now2 p2).expiry := by
  by_cases h1 : p1 = 58 ∨ p1 = 1
  · have h2 : p2 = 58 ∨ p2 = 1 := hclass.mp h1
    simp only [touch, if_pos h1, if_pos h2]
    exact ⟨trivial, by omega⟩
  · have h2 : ¬ (p2 = 58 ∨ p2 = 1) := fun h => h1 (hclass.mpr h)
    simp only [touch, if_neg h1, if_neg h2]
    exact ⟨trivial, by omega⟩

/-- C3 witness: two consecutive UDP touches at times 5 and 9. -/
theorem touch_deadline_monotone_within_class_witness :
    (touch ⟨254, 30, 60000, 7200000⟩ ⟨1, 0, 0, 0, 0, 0, ProtocolCounters.clear⟩ 5 17).expiry
        = 5 + 7200000 ∧
    (touch ⟨254, 30, 60000, 7200000⟩ ⟨1, 0, 0, 0, 0, 0, ProtocolCounters.clear⟩ 5 17).expiry
      ≤ (touch ⟨254, 30, 60000, 7200000⟩
          (touch ⟨254, 30, 60000, 7200000⟩ ⟨1, 0, 0, 0, 0, 0, ProtocolCounters.clear⟩ 5 17)
          9 17).expiry := by
  have h := touch_deadline_monotone_within_class ⟨254, 30, 60000, 7200000⟩
    ⟨1, 0, 0, 0, 0, 0, ProtocolCounters.clear⟩ 5 9 17 17 (by omega) Iff.rfl
  exact ⟨by rw [h.1]; decide, h.2⟩

/-! ### C8 -/

/-- C8: after any sequence of events — in particular any sequence of
`SetEnabled`, `SetIp4Cidr`, `ClearIp4Cidr`, the NAT64-block setter and
clearer — the public state equals the state function of
(enabled, CIDR set, NAT64 validity): `Disabled` when not enabled, `Active`
when enabled with a CIDR and a valid NAT64 block, `NotRunning` otherwise;
and the `Idle` state is never produced. -/
theorem state_function_invariant (cfg : Config) (seed : Nat) (ops : List Op) :
    (runOps cfg (initState seed) ops).state
      = computeState (runOps cfg (initState seed) ops).enabled
          (runOps cfg (initState seed) ops).ip4Cidr
          (runOps cfg (initState seed) ops).nat64Pfx ∧
    (runOps cfg (initState seed) ops).state ≠ State.kStateIdle := by
  have h0 : stateOk (initState seed) := rfl
  have h := stateOk_runOps cfg ops (initState seed) h0
  exact ⟨h, by rw [h]; exact computeState_ne_idle _ _ _⟩

/-! ### C5 -/

/-- One loop body of the port allocator yields 0 (the wrapped corner case)
or an in-range candidate of the right parity. -/
theorem portCandidate_ok (src r : Nat) :
    portCandidate src r = 0 ∨
      (kTranslationPortRangeStart ≤ portCandidate src r ∧
        portCandidate src r ≤ kTranslationPortRangeEnd ∧
        (src ^^^ portCandidate src r) &&& 1 = 0) := by
  unfold portCandidate sampleTranslationPort kTranslationPortRangeStart kTranslationPortRangeEnd
  have h16 : 65535 - 49152 + 1 = 16384 := by norm_num
  rw [h16]
  have hlt : r % 16384 < 16384 := Nat.mod_lt _ (by norm_num)
  have hpar2 : (src ^^^ (49152 + r % 16384)) &&& 1
      = (src + (49152 + r % 16384)) % 2 := by
    rw [Nat.and_one_is_mod]
    exact Nat.xor_mod_two_eq
  by_cases hpar : (src ^^^ (49152 + r % 16384)) &&& 1 = 1
  · rw [if_pos hpar]
    by_cases hmax : r % 16384 = 16383
    · left
      rw [hmax]
      norm_num
    · right
      have hp : (2 : Nat) ^ 16 = 65536 := by norm_num
      rw [hp]
      have h1 : 49152 + r % 16384 + 1 < 65536 := by omega
      rw [Nat.mod_eq_of_lt h1]
      refine ⟨by omega, by omega, ?_⟩
      have hpar3 : (src ^^^ (49152 + r % 16384 + 1)) &&& 1
          = (src + (49152 + r % 16384 + 1)) % 2 := by
        rw [Nat.and_one_is_mod]
        exact Nat.xor_mod_two_eq
      rw [hpar2] at hpar
      rw [hpar3]
      omega
  · rw [if_neg hpar]
    right
    refine ⟨by omega, by omega, ?_⟩
    rw [hpar2] at hpar ⊢
    omega

/-- Any port returned by `AllocateSourcePort` is 0 or in range with the
right parity. -/
theorem allocateSourcePort_ok (l : List AddressMapping) (src : Nat) :
    ∀ (rands : List Nat) (tp : Nat), allocateSourcePort l src rands = some tp →
      tp = 0 ∨
        (kTranslationPortRangeStart ≤ tp ∧ tp ≤ kTranslationPortRangeEnd ∧
          (src ^^^ tp) &&& 1 = 0) := by
  intro rands
  induction rands with
  | nil => intro tp htp; cases htp
  | cons r rest ih =>
    intro tp htp
    unfold allocateSourcePort at htp
    by_cases hc : containsMatchingPort l (portCandidate src r)
    · rw [if_pos hc] at htp
      exact ih tp htp
    · rw [if_neg hc] at htp
      cases htp
      exact portCandidate_ok src r

/-- Filtering keeps port well-formedness. -/
theorem portInvL_filter (l : List AddressMapping) (p : AddressMapping → Bool)
    (h : portInvL l) : portInvL (l.filter p) :=
  fun m hm => h m (List.mem_of_mem_filter hm)

/-- In-place rewrites that keep the two port fields keep port
well-formedness. -/
theorem portInvL_updateById (l : List AddressMapping) (i : Nat)
    (f : AddressMapping → AddressMapping)
    (hf : ∀ x, portOk x → portOk (f x)) (h : portInvL l) :
    portInvL (updateById l i f) := by
  intro m hm
  unfold updateById at hm
  rcases List.mem_map.mp hm with ⟨x, hx, rfl⟩
  split
  · exact hf x (h x hx)
  · exact h x hx

/-- Touching keeps port well-formedness (only the deadline changes). -/
theorem portOk_touch (cfg : Config) (now proto : Nat) (x : AddressMapping)
    (h : portOk x) : portOk (touch cfg x now proto) := by
  unfold touch
  split <;> exact h

/-- Counter bumps keep port well-formedness. -/
theorem portOk_counters (x : AddressMapping) (c : ProtocolCounters)
    (h : portOk x) : portOk { x with counters := c } :=
  h

/-- The address-selection step keeps the invariant. -/
theorem portInvL_selectIp4Address (cfg : Config) (s : TranslatorState) (now : Nat)
    (h : portInvL s.activeAddressMappings) :
    portInvL (selectIp4Address cfg s now).1.activeAddressMappings := by
  rcases (selectIp4Address_frame cfg s now).2.2.2.2 with heq | heq
  · rw [heq]; exact h
  · rw [heq]; exact portInvL_filter _ _ h

/-- Allocation keeps the invariant: the one new mapping gets its port from
`AllocateSourcePort`. -/
theorem portInvL_allocateMapping (cfg : Config) (s : TranslatorState) (now : Nat)
    (rands : List Nat) (h6 : Ip6Packet)
    (h : portInvL s.activeAddressMappings) :
    portInvL (allocateMapping cfg s now rands h6).1.activeAddressMappings := by
  have hsel := portInvL_selectIp4Address cfg s now h
  unfold allocateMapping
  cases hs : selectIp4Address cfg s now with
  | mk s1 addr? =>
    rw [hs] at hsel
    cases addr? with
    | none => exact hsel
    | some p =>
      cases p with
      | mk a pool1 =>
        dsimp only
        by_cases hlen : s1.activeAddressMappings.length < cfg.addressMappingPoolSize
        · rw [if_pos hlen]
          cases hap : allocateSourcePort s1.activeAddressMappings (ip6SourcePortOrId h6) rands with
          | none => exact hsel
          | some tp =>
            intro m hm
            rcases List.mem_cons.mp hm with rfl | hm
            · apply portOk_touch
              intro hne
              rcases allocateSourcePort_ok s1.activeAddressMappings
                (ip6SourcePortOrId h6) rands tp hap with h0 | hok
              · exact absurd h0 hne
              · exact hok
            · exact hsel m hm
        · rw [if_neg hlen]
          exact hsel

/-- Lookup-or-allocate keeps the invariant. -/
theorem portInvL_findOrAllocateMapping (cfg : Config) (s : TranslatorState) (now : Nat)
    (rands : List Nat) (h6 : Ip6Packet)
    (h : portInvL s.activeAddressMappings) :
    portInvL (findOrAllocateMapping cfg s now rands h6).1.activeAddressMappings := by
  unfold findOrAllocateMapping
  dsimp only
  cases findMatching6 s.activeAddressMappings h6.src (ip6SourcePortOrId h6) with
  | some m => exact h
  | none => exact portInvL_allocateMapping cfg s now rands h6 h

/-- The inbound lookup keeps the invariant (it only touches). -/
theorem portInvL_findMapping (cfg : Config) (s : TranslatorState) (now : Nat)
    (h4 : Ip4Packet) (h : portInvL s.activeAddressMappings) :
    portInvL (findMapping cfg s now h4).1.activeAddressMappings := by
  unfold findMapping
  dsimp only
  cases findMatching4 s.activeAddressMappings h4.dst (ip4DestinationPortOrId h4) with
  | none => exact h
  | some m =>
    exact portInvL_updateById _ _ _ (fun x hx => portOk_touch cfg now _ x hx) h

/-- Outbound translation keeps the invariant. -/
theorem portInvL_translateFromIp6 (cfg : Config) (s : TranslatorState) (now : Nat)
    (rands : List Nat) (msg : Message)
    (h : portInvL s.activeAddressMappings) :
    portInvL (translateFromIp6 cfg s now rands msg).1.activeAddressMappings := by
  unfold translateFromIp6
  by_cases h0 : s.ip4Cidr.length = 0 ∨ ¬ isValidNat64 s.nat64Pfx
  · rw [if_pos h0]; exact h
  · rw [if_neg h0]
    cases msg with
    | ip4 p => exact h
    | malformed => exact h
    | ip6 h6 =>
      dsimp only
      by_cases hm : ¬ matchesPfx h6.dst s.nat64Pfx
      · rw [if_pos hm]; exact h
      · rw [if_neg hm]
        have hfoa := portInvL_findOrAllocateMapping cfg s now rands h6 h
        cases hf : findOrAllocateMapping cfg s now rands h6 with
        | mk s1 m? =>
          rw [hf] at hfoa
          cases m? with
          | none => exact hfoa
          | some m =>
            dsimp only
            cases h6.payload with
            | udp sp dp =>
              dsimp only
              exact portInvL_updateById _ _ _ (fun x hx => portOk_counters x _ hx) hfoa
            | tcp sp dp =>
              dsimp only
              exact portInvL_updateById _ _ _ (fun x hx => portOk_counters x _ hx) hfoa
            | icmp t i =>
              dsimp only
              cases translateIcmp6 t i m.translatedPortOrId with
              | none => exact hfoa
              | some r =>
                cases r with
                | mk t4 i4 =>
                  dsimp only
                  exact portInvL_updateById _ _ _ (fun x hx => portOk_counters x _ hx) hfoa
            | other n => exact hfoa

/-- Inbound translation keeps the invariant. -/
theorem portInvL_translateToIp6 (cfg : Config) (s : TranslatorState) (now : Nat)
    (msg : Message) (h : portInvL s.activeAddressMappings) :
    portInvL (translateToIp6 cfg s now msg).1.activeAddressMappings := by
  unfold translateToIp6
  cases msg with
  | ip6 p => exact h
  | malformed =>
    by_cases h0 : s.ip4Cidr.length = 0
    · rw [if_pos h0]; exact h
    · rw [if_neg h0]
      by_cases h1 : ¬ isValidNat64 s.nat64Pfx
      · rw [if_pos h1]; exact h
      · rw [if_neg h1]; exact h
  | ip4 h4 =>
    dsimp only
    by_cases h0 : s.ip4Cidr.length = 0
    · rw [if_pos h0]; exact h
    · rw [if_neg h0]
      by_cases h1 : ¬ isValidNat64 s.nat64Pfx
      · rw [if_pos h1]; exact h
      · rw [if_neg h1]
        have hfm := portInvL_findMapping cfg s now h4 h
        cases hf : findMapping cfg s now h4 with
        | mk s1 m? =>
          rw [hf] at hfm
          cases m? with
          | none => exact hfm
          | some m =>
            dsimp only
            cases h4.payload with
            | udp sp dp =>
              dsimp only
              exact portInvL_updateById _ _ _ (fun x hx => portOk_counters x _ hx) hfm
            | tcp sp dp =>
              dsimp only
              exact portInvL_updateById _ _ _ (fun x hx => portOk_counters x _ hx) hfm
            | icmp t i =>
              dsimp only
              cases translateIcmp4 t i m.srcPortOrId with
              | none => exact hfm
              | some r =>
                cases r with
                | mk t6 i6 =>
                  dsimp only
                  exact portInvL_updateById _ _ _ (fun x hx => portOk_counters x _ hx) hfm
            | other n => exact hfm

/-- Every event keeps the invariant. -/
theorem portInvL_applyOp (cfg : Config) (s : TranslatorState) (op : Op)
    (h : portInvL s.activeAddressMappings) :
    portInvL (applyOp cfg s op).activeAddressMappings := by
  cases op with
  | setEnabled b =>
    show portInvL (setEnabled cfg s b).activeAddressMappings
    unfold setEnabled
    by_cases heq : s.enabled = b
    · rw [if_pos heq]; exact h
    · rw [if_neg heq]
      dsimp only
      by_cases hb : b
      · rw [if_pos hb]
        exact h
      · rw [if_neg hb]
        unfold updateState
        rw [(releaseMappings_frame cfg _ _).2.2.2.2]
        intro m hm
        cases hm
  | setIp4Cidr c =>
    show portInvL (setIp4Cidr cfg s c).1.activeAddressMappings
    unfold setIp4Cidr
    by_cases h1 : ¬ (0 < c.length ∧ c.length ≤ 32)
    · rw [if_pos h1]; exact h
    · rw [if_neg h1]
      by_cases h2 : s.ip4Cidr = c
      · rw [if_pos h2]; exact h
      · rw [if_neg h2]
        intro m hm
        cases hm
  | clearIp4Cidr =>
    intro m hm
    cases hm
  | setNat64Pfx p =>
    show portInvL (setNat64Pfx s p).activeAddressMappings
    unfold setNat64Pfx clearNat64Pfx
    split_ifs <;> exact h
  | clearNat64Pfx =>
    show portInvL (clearNat64Pfx s).activeAddressMappings
    unfold clearNat64Pfx
    split_ifs <;> exact h
  | fromIp6 now rands msg => exact portInvL_translateFromIp6 cfg s now rands msg h
  | toIp6 now msg => exact portInvL_translateToIp6 cfg s now msg h
  | timerFire now =>
    show portInvL (handleMappingExpirerTimer cfg s now).activeAddressMappings
    unfold handleMappingExpirerTimer
    rw [(releaseExpiredMappings_frame cfg s now).2.2.2.2]
    exact portInvL_filter _ _ h

/-- The invariant holds along any event sequence. -/
theorem portInvL_runOps (cfg : Config) (ops : List Op) :
    ∀ s : TranslatorState, portInvL s.activeAddressMappings →
      portInvL (runOps cfg s ops).activeAddressMappings := by
  induction ops with
  | nil => exact fun s h => h
  | cons op ops ih =>
    intro s h
    rw [runOps_cons]
    exact ih _ (portInvL_applyOp cfg s op h)

/-- C5: in every reachable state (any event sequence from the constructor
state, in the port-translation build), every active mapping whose
translated port or identifier is nonzero has it in [49152, 65535] with
`(srcPortOrId XOR translatedPortOrId) & 1 == 0`, i.e. the parity of the
original port or ICMP identifier is preserved. -/
theorem port_range_and_parity (cfg : Config) (seed : Nat) (ops : List Op) :
    ∀ m ∈ (runOps cfg (initState seed) ops).activeAddressMappings,
      m.translatedPortOrId ≠ 0 →
        49152 ≤ m.translatedPortOrId ∧ m.translatedPortOrId ≤ 65535 ∧
        (m.srcPortOrId ^^^ m.translatedPortOrId) &&& 1 = 0 := by
  have h0 : portInvL (initState seed).activeAddressMappings := by
    intro m hm
    cases hm
  exact portInvL_runOps cfg ops (initState seed) h0

/-- C5 witness: the invariant applied to the mapping created by a first
outbound UDP packet (CIDR 192.0.2.0/24, block 64:ff9b::/96, source port
33000, random oracle 0). -/
theorem port_range_and_parity_witness :
    (⟨1, 0x20010DB8000000000000000000000001, 0xC0000202, 33000, 49152, 7200000,
        ⟨⟨1, 8, 0, 0⟩, ⟨0, 0, 0, 0⟩, ⟨0, 0, 0, 0⟩, ⟨1, 8, 0, 0⟩⟩⟩ : AddressMapping)
        ∈ (runOps ⟨2, 30, 60000, 7200000⟩ (initState 0)
            [Op.setIp4Cidr ⟨0xC0000200, 24⟩,
             Op.setNat64Pfx ⟨0x0064ff9b000000000000000000000000, 96⟩,
             Op.fromIp6 0 [0] (Message.ip6
               ⟨0x20010DB8000000000000000000000001,
                0x0064ff9b0000000000000000CB007105, 64, 8,
                L4.udp 33000 4242⟩)]).activeAddressMappings ∧
    ((49152 : Nat) ≤ 49152 ∧ (49152 : Nat) ≤ 65535 ∧
      ((33000 : Nat) ^^^ 49152) &&& 1 = 0) := by
  refine ⟨by decide, ?_⟩
  exact port_range_and_parity ⟨2, 30, 60000, 7200000⟩ 0
    [Op.setIp4Cidr ⟨0xC0000200, 24⟩,
     Op.setNat64Pfx ⟨0x0064ff9b000000000000000000000000, 96⟩,
     Op.fromIp6 0 [0] (Message.ip6
       ⟨0x20010DB8000000000000000000000001,
        0x0064ff9b0000000000000000CB007105, 64, 8, L4.udp 33000 4242⟩)]
    ⟨1, 0x20010DB8000000000000000000000001, 0xC0000202, 33000, 49152, 7200000,
      ⟨⟨1, 8, 0, 0⟩, ⟨0, 0, 0, 0⟩, ⟨0, 0, 0, 0⟩, ⟨1, 8, 0, 0⟩⟩⟩
    (by decide) (by decide)

/-! ### C7 -/

/-- C7: inbound precondition handling, in order and before any IPv4
parsing: a message that parses as IPv6 is `NotTranslated` with nothing
changed; otherwise an unset CIDR gives pass-through `Forward` with the
message unmodified; otherwise an invalid NAT64 block gives `Drop` (the
unknown-reason counter is the only state change).  The last two conjuncts
hold for any non-IPv6 message, including unparseable ones, which shows the
checks precede IPv4 header parsing. -/
theorem translateToIp6_precondition_order (cfg : Config) (s : TranslatorState)
    (now : Nat) (msg : Message) :
    (∀ p : Ip6Packet, translateToIp6 cfg s now (.ip6 p) = (s, .ip6 p, .kNotTranslated)) ∧
    ((∀ p : Ip6Packet, msg ≠ .ip6 p) → s.ip4Cidr.length = 0 →
      translateToIp6 cfg s now msg = (s, msg, .kForward)) ∧
    ((∀ p : Ip6Packet, msg ≠ .ip6 p) → s.ip4Cidr.length ≠ 0 →
      isValidNat64 s.nat64Pfx = false →
      translateToIp6 cfg s now msg
        = ({ s with errorCounters := s.errorCounters.count4To6 .kUnknown },
          msg, .kDrop)) := by
  refine ⟨fun p => rfl, fun hnot h0 => ?_, fun hnot h0 hv => ?_⟩
  · cases msg with
    | ip6 p => exact absurd rfl (hnot p)
    | ip4 h4 => simp [translateToIp6, h0]
    | malformed => simp [translateToIp6, h0]
  · cases msg with
    | ip6 p => exact absurd rfl (hnot p)
    | ip4 h4 => simp [translateToIp6, h0, hv]
    | malformed => simp [translateToIp6, h0, hv]

/-- C7 witness: the three conjuncts applied at concrete inputs — an IPv6
UDP message, an unparseable message with the CIDR unset, and an
unparseable message with the CIDR set but the NAT64 block invalid. -/
theorem translateToIp6_precondition_order_witness :
    translateToIp6 ⟨2, 30, 60000, 7200000⟩ (initState 0) 0
        (Message.ip6 ⟨1, 2, 64, 8, L4.udp 7 9⟩)
      = (initState 0, Message.ip6 ⟨1, 2, 64, 8, L4.udp 7 9⟩, Result.kNotTranslated) ∧
    translateToIp6 ⟨2, 30, 60000, 7200000⟩ (initState 0) 0 Message.malformed
      = (initState 0, Message.malformed, Result.kForward) ∧
    translateToIp6 ⟨2, 30, 60000, 7200000⟩
        { initState 0 with ip4Cidr := ⟨0xC0000200, 24⟩ } 0 Message.malformed
      = ({ { initState 0 with ip4Cidr := ⟨0xC0000200, 24⟩ } with
            errorCounters :=
              ({ initState 0 with
                  ip4Cidr := ⟨0xC0000200, 24⟩ }).errorCounters.count4To6 .kUnknown },
        Message.malformed, Result.kDrop) := by
  refine ⟨?_, ?_, ?_⟩
  · exact (translateToIp6_precondition_order ⟨2, 30, 60000, 7200000⟩ (initState 0) 0
      Message.malformed).1 ⟨1, 2, 64, 8, L4.udp 7 9⟩
  · exact (translateToIp6_precondition_order ⟨2, 30, 60000, 7200000⟩ (initState 0) 0
      Message.malformed).2.1 (fun p h => Message.noConfusion h) (by decide)
  · exact (translateToIp6_precondition_order ⟨2, 30, 60000, 7200000⟩
      { initState 0 with ip4Cidr := ⟨0xC0000200, 24⟩ } 0
      Message.malformed).2.2 (fun p h => Message.noConfusion h) (by decide) (by decide)

/-! ### C9 -/

/-- C9: `SetIp4Cidr` fails with `InvalidArgs` exactly for lengths 0 and
above 32, leaving everything unchanged then; and for an accepted new CIDR
it fills the address pool with `min(N, kAddressMappingPoolSize)` host
addresses, where N is 1 for length 32, 2 for length 31, and
`2^(32-length) - 2` for shorter lengths (host identifiers start at 1,
skipping the all-zeros host id; the all-ones host id is skipped by the
`- 2`). -/
theorem setIp4Cidr_validation_and_pool (cfg : Config) (s : TranslatorState)
    (c : Ip4Cidr) :
    ((setIp4Cidr cfg s c).2 = OtError.kErrorInvalidArgs ↔
      (c.length = 0 ∨ 32 < c.length)) ∧
    ((c.length = 0 ∨ 32 < c.length) → (setIp4Cidr cfg s c).1 = s) ∧
    (c.length ≠ 0 → c.length ≤ 32 → s.ip4Cidr ≠ c →
      (setIp4Cidr cfg s c).1.ip4AddressPool =
        (List.range (min (if c.length = 32 then 1 else if c.length = 31 then 2
            else 2 ^ (32 - c.length) - 2) cfg.addressMappingPoolSize)).map
          (fun i => synthesizeFromCidrAndHost c
            (i + (if c.length = 32 then 0 else if c.length = 31 then 0 else 1))) ∧
      (setIp4Cidr cfg s c).1.ip4AddressPool.length =
        min (if c.length = 32 then 1 else if c.length = 31 then 2
            else 2 ^ (32 - c.length) - 2) cfg.addressMappingPoolSize) := by
  by_cases h1 : 0 < c.length ∧ c.length ≤ 32
  · unfold setIp4Cidr
    rw [if_neg (not_not_intro h1)]
    by_cases h2 : s.ip4Cidr = c
    · rw [if_pos h2]
      refine ⟨⟨(fun he => nomatch he), (fun hor => absurd hor (by omega))⟩,
        fun _ => rfl, fun hz hle hne => absurd h2 hne⟩
    · rw [if_neg h2]
      refine ⟨⟨(fun he => nomatch he), (fun hor => absurd hor (by omega))⟩,
        fun hor => absurd hor (by omega), fun hz hle hne => ⟨rfl, ?_⟩⟩
      simp [updateState]
  · unfold setIp4Cidr
    rw [if_pos h1]
    exact ⟨⟨fun _ => by omega, fun _ => rfl⟩, fun _ => rfl,
      fun hz hle _ => absurd ⟨Nat.pos_of_ne_zero hz, hle⟩ h1⟩

/-- C9 witness: a /31 CIDR accepted on the fresh translator (pool of two),
and a /33 one rejected. -/
theorem setIp4Cidr_validation_and_pool_witness :
    (setIp4Cidr ⟨2, 30, 60000, 7200000⟩ (initState 0) ⟨0xC0000200, 31⟩).1.ip4AddressPool
        = [synthesizeFromCidrAndHost ⟨0xC0000200, 31⟩ 0,
           synthesizeFromCidrAndHost ⟨0xC0000200, 31⟩ 1] ∧
    (setIp4Cidr ⟨2, 30, 60000, 7200000⟩ (initState 0) ⟨0xC0000200, 33⟩).1 = initState 0 := by
  constructor
  · have h := ((setIp4Cidr_validation_and_pool ⟨2, 30, 60000, 7200000⟩ (initState 0)
      ⟨0xC0000200, 31⟩).2.2 (by decide) (by decide) (by decide)).1
    rw [h]
    decide
  · exact (setIp4Cidr_validation_and_pool ⟨2, 30, 60000, 7200000⟩ (initState 0)
      ⟨0xC0000200, 33⟩).2.1 (by decide)

/-! ### C6 -/

/-- Releasing a mapping never touches the drop counters. -/
theorem releaseMapping_err (cfg : Config) (s : TranslatorState) (m : AddressMapping) :
    (releaseMapping cfg s m).errorCounters = s.errorCounters := by
  unfold releaseMapping
  split <;> rfl

/-- Releasing a batch never touches the drop counters. -/
theorem releaseMappings_err (cfg : Config) (ms : List AddressMapping) :
    ∀ s : TranslatorState, (releaseMappings cfg s ms).errorCounters = s.errorCounters := by
  induction ms with
  | nil => exact fun s => rfl
  | cons m ms ih =>
    intro s
    rw [releaseMappings_cons]
    exact (ih (releaseMapping cfg s m)).trans (releaseMapping_err cfg s m)

/-- The expiry sweep never touches the drop counters. -/
theorem releaseExpiredMappings_err (cfg : Config) (s : TranslatorState) (now : Nat) :
    (releaseExpiredMappings cfg s now).1.errorCounters = s.errorCounters := by
  unfold releaseExpiredMappings
  exact releaseMappings_err cfg _ _

/-- Address selection never touches the drop counters. -/
theorem selectIp4Address_err (cfg : Config) (s : TranslatorState) (now : Nat) :
    (selectIp4Address cfg s now).1.errorCounters = s.errorCounters := by
  unfold selectIp4Address
  by_cases hA : cfg.maxCidrLenForValidAddrPool < s.ip4Cidr.length
  · rw [if_pos hA]
    cases s.ip4AddressPool.head? <;> rfl
  · rw [if_neg hA]
    by_cases hB : s.ip4AddressPool.isEmpty
    · rw [if_pos hB]
      have h := releaseExpiredMappings_err cfg s now
      by_cases hn : (releaseExpiredMappings cfg s now).2 = 0
      · rw [if_pos hn]; exact h
      · rw [if_neg hn]
        cases popBack (releaseExpiredMappings cfg s now).1.ip4AddressPool with
        | none => exact h
        | some p => cases p with | mk a rest => exact h
    · rw [if_neg hB]
      cases popBack s.ip4AddressPool with
      | none => rfl
      | some p => cases p with | mk a rest => rfl

/-- Allocation never touches the drop counters. -/
theorem allocateMapping_err (cfg : Config) (s : TranslatorState) (now : Nat)
    (rands : List Nat) (h : Ip6Packet) :
    (allocateMapping cfg s now rands h).1.errorCounters = s.errorCounters := by
  have hsel := selectIp4Address_err cfg s now
  unfold allocateMapping
  cases hs : selectIp4Address cfg s now with
  | mk s1 addr? =>
    rw [hs] at hsel
    cases addr? with
    | none => exact hsel
    | some p =>
      cases p with
      | mk a pool1 =>
        dsimp only
        by_cases hlen : s1.activeAddressMappings.length < cfg.addressMappingPoolSize
        · rw [if_pos hlen]
          cases allocateSourcePort s1.activeAddressMappings (ip6SourcePortOrId h) rands with
          | none => exact hsel
          | some tp => exact hsel
        · rw [if_neg hlen]
          exact hsel

/-- Lookup-or-allocate never touches the drop counters. -/
theorem findOrAllocateMapping_err (cfg : Config) (s : TranslatorState) (now : Nat)
    (rands : List Nat) (h : Ip6Packet) :
    (findOrAllocateMapping cfg s now rands h).1.errorCounters = s.errorCounters := by
  unfold findOrAllocateMapping
  dsimp only
  cases findMatching6 s.activeAddressMappings h.src (ip6SourcePortOrId h) with
  | some m => rfl
  | none => exact allocateMapping_err cfg s now rands h

/-- C6 counterexample: the claim says every prefix-matching IPv6 packet
with an unsupported next-header increments the UnsupportedProto drop
counter.  In a pool-exhausted state (capacity 1, one unexpired mapping
holding the only address) an SCTP (132) packet of a new flow is dropped
through the earlier mapping-allocation failure: the NoMapping counter is
incremented and the UnsupportedProto counter stays 0. -/
theorem unsupported_proto_packet_can_count_no_mapping :
    (translateFromIp6 ⟨1, 30, 60000, 7200000⟩
        (runOps ⟨1, 30, 60000, 7200000⟩ (initState 0)
          [Op.setIp4Cidr ⟨0xC0000200, 24⟩,
           Op.setNat64Pfx ⟨0x0064ff9b000000000000000000000000, 96⟩,
           Op.fromIp6 0 [0] (Message.ip6
             ⟨0x20010DB8000000000000000000000001,
              0x0064ff9b0000000000000000CB007105, 64, 8, L4.udp 33000 4242⟩)])
        5 [0] (Message.ip6
          ⟨0x20010DB8000000000000000000000002,
           0x0064ff9b0000000000000000CB007105, 64, 8, L4.other 132⟩)).2.2
      = Result.kDrop ∧
    (translateFromIp6 ⟨1, 30, 60000, 7200000⟩
        (runOps ⟨1, 30, 60000, 7200000⟩ (initState 0)
          [Op.setIp4Cidr ⟨0xC0000200, 24⟩,
           Op.setNat64Pfx ⟨0x0064ff9b000000000000000000000000, 96⟩,
           Op.fromIp6 0 [0] (Message.ip6
             ⟨0x20010DB8000000000000000000000001,
              0x0064ff9b0000000000000000CB007105, 64, 8, L4.udp 33000 4242⟩)])
        5 [0] (Message.ip6
          ⟨0x20010DB8000000000000000000000002,
           0x0064ff9b0000000000000000CB007105, 64, 8,
           L4.other 132⟩)).1.errorCounters.c6To4.unsupportedProto = 0 ∧
    (translateFromIp6 ⟨1, 30, 60000, 7200000⟩
        (runOps ⟨1, 30, 60000, 7200000⟩ (initState 0)
          [Op.setIp4Cidr ⟨0xC0000200, 24⟩,
           Op.setNat64Pfx ⟨0x0064ff9b000000000000000000000000, 96⟩,
           Op.fromIp6 0 [0] (Message.ip6
             ⟨0x20010DB8000000000000000000000001,
              0x0064ff9b0000000000000000CB007105, 64, 8, L4.udp 33000 4242⟩)])
        5 [0] (Message.ip6
          ⟨0x20010DB8000000000000000000000002,
           0x0064ff9b0000000000000000CB007105, 64, 8,
           L4.other 132⟩)).1.errorCounters.c6To4.noMapping = 1 := by
  refine ⟨?_, ?_, ?_⟩ <;> decide

/-- C6 (amended): `TranslateFromIp6` returns `NotTranslated`, before
anything else, whenever the CIDR length is 0 or the NAT64 block is not
valid; and a parsed IPv6 packet whose destination matches the block and
whose next-header is unsupported is dropped with the UnsupportedProto
counter incremented exactly once, provided the mapping lookup or
allocation succeeds (on allocation failure the packet is instead dropped
as NoMapping, as the counterexample shows). -/
theorem translateFromIp6_result_classification
    (cfg : Config) (s s1 : TranslatorState) (now : Nat) (rands : List Nat)
    (msg : Message) (h6 : Ip6Packet) (n : Nat) (m : AddressMapping) :
    ((s.ip4Cidr.length = 0 ∨ isValidNat64 s.nat64Pfx = false) →
      translateFromIp6 cfg s now rands msg = (s, msg, .kNotTranslated)) ∧
    (s.ip4Cidr.length ≠ 0 → isValidNat64 s.nat64Pfx = true →
      matchesPfx h6.dst s.nat64Pfx = true →
      h6.payload = L4.other n →
      findOrAllocateMapping cfg s now rands h6 = (s1, some m) →
      translateFromIp6 cfg s now rands (.ip6 h6)
          = ({ s1 with
                errorCounters := s1.errorCounters.count6To4 .kUnsupportedProto },
            .ip6 h6, .kDrop) ∧
        (translateFromIp6 cfg s now rands (.ip6 h6)).1.errorCounters.c6To4.unsupportedProto
          = s.errorCounters.c6To4.unsupportedProto + 1 ∧
        (translateFromIp6 cfg s now rands (.ip6 h6)).1.errorCounters.c6To4.noMapping
          = s.errorCounters.c6To4.noMapping ∧
        (translateFromIp6 cfg s now rands (.ip6 h6)).1.errorCounters.c6To4.illegalPacket
          = s.errorCounters.c6To4.illegalPacket ∧
        (translateFromIp6 cfg s now rands (.ip6 h6)).1.errorCounters.c6To4.unknown
          = s.errorCounters.c6To4.unknown ∧
        (translateFromIp6 cfg s now rands (.ip6 h6)).1.errorCounters.c4To6
          = s.errorCounters.c4To6) := by
  constructor
  · intro h
    have hcond : s.ip4Cidr.length = 0 ∨ ¬ isValidNat64 s.nat64Pfx := by
      rcases h with h | h
      · exact Or.inl h
      · exact Or.inr (by simp [h])
    unfold translateFromIp6
    rw [if_pos hcond]
  · intro hz hv hmatch hpay hfoa
    have herr : s1.errorCounters = s.errorCounters := by
      have h := findOrAllocateMapping_err cfg s now rands h6
      rw [hfoa] at h
      exact h
    obtain ⟨src6, dst6, hop6, len6, pay⟩ := h6
    dsimp only at hpay hmatch hfoa
    subst hpay
    have heq : translateFromIp6 cfg s now rands
        (.ip6 ⟨src6, dst6, hop6, len6, L4.other n⟩)
        = ({ s1 with
              errorCounters := s1.errorCounters.count6To4 .kUnsupportedProto },
          .ip6 ⟨src6, dst6, hop6, len6, L4.other n⟩, .kDrop) := by
      unfold translateFromIp6
      rw [if_neg (by simp [hz, hv])]
      dsimp only
      rw [if_neg (by simp [hmatch])]
      rw [hfoa]
    refine ⟨heq, ?_, ?_, ?_, ?_, ?_⟩ <;>
      rw [heq] <;>
      simp [ErrorCounters.count6To4, ErrorDirCounts.bump, herr]

/-- C6 witness: a fresh translator with CIDR 192.0.2.0/24 and block
64:ff9b::/96 drops an SCTP packet with the UnsupportedProto counter going
from 0 to 1 (the mapping allocation having succeeded). -/
theorem translateFromIp6_result_classification_witness :
    (translateFromIp6 ⟨2, 30, 60000, 7200000⟩
        (runOps ⟨2, 30, 60000, 7200000⟩ (initState 0)
          [Op.setIp4Cidr ⟨0xC0000200, 24⟩,
           Op.setNat64Pfx ⟨0x0064ff9b000000000000000000000000, 96⟩])
        0 [0] (Message.ip6
          ⟨0x20010DB8000000000000000000000001,
           0x0064ff9b0000000000000000CB007105, 64, 8, L4.other 132⟩)).2.2
      = Result.kDrop ∧
    (translateFromIp6 ⟨2, 30, 60000, 7200000⟩
        (runOps ⟨2, 30, 60000, 7200000⟩ (initState 0)
          [Op.setIp4Cidr ⟨0xC0000200, 24⟩,
           Op.setNat64Pfx ⟨0x0064ff9b000000000000000000000000, 96⟩])
        0 [0] (Message.ip6
          ⟨0x20010DB8000000000000000000000001,
           0x0064ff9b0000000000000000CB007105, 64, 8,
           L4.other 132⟩)).1.errorCounters.c6To4.unsupportedProto
      = (runOps ⟨2, 30, 60000, 7200000⟩ (initState 0)
          [Op.setIp4Cidr ⟨0xC0000200, 24⟩,
           Op.setNat64Pfx
             ⟨0x0064ff9b000000000000000000000000,
              96⟩]).errorCounters.c6To4.unsupportedProto + 1 := by
  have h := (translateFromIp6_result_classification ⟨2, 30, 60000, 7200000⟩
    (runOps ⟨2, 30, 60000, 7200000⟩ (initState 0)
      [Op.setIp4Cidr ⟨0xC0000200, 24⟩,
       Op.setNat64Pfx ⟨0x0064ff9b000000000000000000000000, 96⟩])
    (findOrAllocateMapping ⟨2, 30, 60000, 7200000⟩
      (runOps ⟨2, 30, 60000, 7200000⟩ (initState 0)
        [Op.setIp4Cidr ⟨0xC0000200, 24⟩,
         Op.setNat64Pfx ⟨0x0064ff9b000000000000000000000000, 96⟩])
      0 [0] ⟨0x20010DB8000000000000000000000001,
        0x0064ff9b0000000000000000CB007105, 64, 8, L4.other 132⟩).1
    0 [0] Message.malformed
    ⟨0x20010DB8000000000000000000000001,
      0x0064ff9b0000000000000000CB007105, 64, 8, L4.other 132⟩
    132
    ⟨1, 0x20010DB8000000000000000000000001, 0xC0000202, 0, 49152, 7200000,
      ProtocolCounters.clear⟩).2
    (by decide) (by decide) (by decide) rfl (by decide)
  exact ⟨by rw [h.1], h.2.1⟩

/-! ### C4 -/

/-- Touching changes only the deadline. -/
theorem touch_fields (cfg : Config) (x : AddressMapping) (now proto : Nat) :
    (touch cfg x now proto).id = x.id ∧
    (touch cfg x now proto).ip6 = x.ip6 ∧
    (touch cfg x now proto).ip4 = x.ip4 ∧
    (touch cfg x now proto).srcPortOrId = x.srcPortOrId ∧
    (touch cfg x now proto).translatedPortOrId = x.translatedPortOrId := by
  unfold touch
  split <;> exact ⟨rfl, rfl, rfl, rfl, rfl⟩

/-- A successful outbound lookup pins the mapping's key fields. -/
theorem findMatching6_key (l : List AddressMapping) (a port : Nat)
    (m : AddressMapping) (h : findMatching6 l a port = some m) :
    m.ip6 = a ∧ m.srcPortOrId = port := by
  unfold findMatching6 at h
  have hp := List.find?_some h
  simpa using hp

/-- A successful inbound lookup pins the mapping's key fields. -/
theorem findMatching4_key (l : List AddressMapping) (a port : Nat)
    (m : AddressMapping) (h : findMatching4 l a port = some m) :
    m.ip4 = a ∧ m.translatedPortOrId = port := by
  unfold findMatching4 at h
  have hp := List.find?_some h
  simpa using hp

/-- Inbound lookup commutes with an in-place rewrite that keeps the
inbound key fields. -/
theorem findMatching4_updateById (l : List AddressMapping) (i a port : Nat)
    (f : AddressMapping → AddressMapping)
    (hf : ∀ x, (f x).ip4 = x.ip4 ∧ (f x).translatedPortOrId = x.translatedPortOrId) :
    findMatching4 (updateById l i f) a port
      = Option.map (fun x => if x.id = i then f x else x) (findMatching4 l a port) := by
  unfold findMatching4 updateById
  rw [List.find?_map]
  have hpred : ((fun m => decide (m.ip4 = a ∧ m.translatedPortOrId = port)) ∘
      fun m => if m.id = i then f m else m)
      = fun m => decide (m.ip4 = a ∧ m.translatedPortOrId = port) := by
    funext x
    dsimp only [Function.comp]
    by_cases hid : x.id = i
    · rw [if_pos hid, (hf x).1, (hf x).2]
    · rw [if_neg hid]
  rw [hpred]

/-- C4: outbound-inbound round trip.  For a flow with an established
mapping `m` (the two lookups resolve to `m`), translating an IPv6 UDP or
TCP packet outbound gives `Forward` with the translated port on the wire,
and translating an IPv4 reply addressed to `m.ip4` at the translated port
gives `Forward` with the original IPv6 source address and original source
port reconstructed as the destination address and destination port. -/
theorem outbound_inbound_round_trip (cfg : Config) (s : TranslatorState)
    (m : AddressMapping) (h6 : Ip6Packet) (r4 : Ip4Packet)
    (sp dp rsp now1 now2 : Nat) (rands : List Nat)
    (hcidr : s.ip4Cidr.length ≠ 0)
    (hpfx : isValidNat64 s.nat64Pfx = true)
    (hmatch : matchesPfx h6.dst s.nat64Pfx = true)
    (hpay : h6.payload = L4.udp sp dp ∨ h6.payload = L4.tcp sp dp)
    (hfind6 : findMatching6 s.activeAddressMappings h6.src sp = some m)
    (hfind4 : findMatching4 s.activeAddressMappings m.ip4 m.translatedPortOrId = some m)
    (hrdst : r4.dst = m.ip4)
    (hrpay : r4.payload = L4.udp rsp m.translatedPortOrId ∨
      r4.payload = L4.tcp rsp m.translatedPortOrId) :
    (translateFromIp6 cfg s now1 rands (.ip6 h6)).2.2 = Result.kForward ∧
    (∃ p4 : Ip4Packet,
      (translateFromIp6 cfg s now1 rands (.ip6 h6)).2.1 = Message.ip4 p4 ∧
      p4.dst = extractFromIp6Address s.nat64Pfx.length h6.dst ∧
      l4SrcPort p4.payload = m.translatedPortOrId) ∧
    (translateToIp6 cfg (translateFromIp6 cfg s now1 rands (.ip6 h6)).1 now2
        (.ip4 r4)).2.2 = Result.kForward ∧
    (∃ p6 : Ip6Packet,
      (translateToIp6 cfg (translateFromIp6 cfg s now1 rands (.ip6 h6)).1 now2
          (.ip4 r4)).2.1 = Message.ip6 p6 ∧
      p6.dst = h6.src ∧ l4DstPort p6.payload = sp) := by
  obtain ⟨s6, d6, hop6, len6, pay6⟩ := h6
  obtain ⟨sr4, dr4, ttl4, idf4, len4, pay4⟩ := r4
  dsimp only at hmatch hfind6 hpay hrpay hrdst ⊢
  subst hrdst
  have hm6 := findMatching6_key s.activeAddressMappings s6 sp m hfind6
  rcases hpay with rfl | rfl <;> rcases hrpay with rfl | rfl
  · -- UDP out, UDP reply
    have hout : translateFromIp6 cfg s now1 rands
        (Message.ip6 ⟨s6, d6, hop6, len6, L4.udp sp dp⟩)
        = ({ s with
              counters := s.counters.count6To4Packet 17 len6
              activeAddressMappings := updateById s.activeAddressMappings m.id fun x =>
                { x with counters := x.counters.count6To4Packet 17 len6 } },
          Message.ip4 ⟨m.ip4, extractFromIp6Address s.nat64Pfx.length d6, hop6, 0,
            20 + len6, L4.udp m.translatedPortOrId dp⟩,
          Result.kForward) := by
      unfold translateFromIp6
      rw [if_neg (by simp [hcidr, hpfx])]
      dsimp only
      rw [if_neg (by simp [hmatch])]
      unfold findOrAllocateMapping
      dsimp only [ip6SourcePortOrId]
      rw [hfind6]
      rfl
    refine ⟨by rw [hout], ⟨⟨m.ip4, extractFromIp6Address s.nat64Pfx.length d6, hop6, 0,
      20 + len6, L4.udp m.translatedPortOrId dp⟩, by rw [hout], rfl, rfl⟩, ?_, ?_⟩
    · rw [hout]
      unfold translateToIp6
      dsimp only
      rw [if_neg hcidr, if_neg (by simp [hpfx])]
      unfold findMapping
      dsimp only [ip4DestinationPortOrId]
      rw [findMatching4_updateById s.activeAddressMappings m.id m.ip4
        m.translatedPortOrId
        (fun x => { x with counters := x.counters.count6To4Packet 17 len6 })
        (fun x => ⟨rfl, rfl⟩), hfind4]
      dsimp only [Option.map]
    · rw [hout]
      unfold translateToIp6
      dsimp only
      rw [if_neg hcidr, if_neg (by simp [hpfx])]
      unfold findMapping
      dsimp only [ip4DestinationPortOrId]
      rw [findMatching4_updateById s.activeAddressMappings m.id m.ip4
        m.translatedPortOrId
        (fun x => { x with counters := x.counters.count6To4Packet 17 len6 })
        (fun x => ⟨rfl, rfl⟩), hfind4]
      dsimp only [Option.map]
      rw [if_pos (rfl : m.id = m.id)]
      exact ⟨_, rfl, hm6.1, hm6.2⟩
  · -- UDP out, TCP reply
    have hout : translateFromIp6 cfg s now1 rands
        (Message.ip6 ⟨s6, d6, hop6, len6, L4.udp sp dp⟩)
        = ({ s with
              counters := s.counters.count6To4Packet 17 len6
              activeAddressMappings := updateById s.activeAddressMappings m.id fun x =>
                { x with counters := x.counters.count6To4Packet 17 len6 } },
          Message.ip4 ⟨m.ip4, extractFromIp6Address s.nat64Pfx.length d6, hop6, 0,
            20 + len6, L4.udp m.translatedPortOrId dp⟩,
          Result.kForward) := by
      unfold translateFromIp6
      rw [if_neg (by simp [hcidr, hpfx])]
      dsimp only
      rw [if_neg (by simp [hmatch])]
      unfold findOrAllocateMapping
      dsimp only [ip6SourcePortOrId]
      rw [hfind6]
      rfl
    refine ⟨by rw [hout], ⟨⟨m.ip4, extractFromIp6Address s.nat64Pfx.length d6, hop6, 0,
      20 + len6, L4.udp m.translatedPortOrId dp⟩, by rw [hout], rfl, rfl⟩, ?_, ?_⟩
    · rw [hout]
      unfold translateToIp6
      dsimp only
      rw [if_neg hcidr, if_neg (by simp [hpfx])]
      unfold findMapping
      dsimp only [ip4DestinationPortOrId]
      rw [findMatching4_updateById s.activeAddressMappings m.id m.ip4
        m.translatedPortOrId
        (fun x => { x with counters := x.counters.count6To4Packet 17 len6 })
        (fun x => ⟨rfl, rfl⟩), hfind4]
      dsimp only [Option.map]
    · rw [hout]
      unfold translateToIp6
      dsimp only
      rw [if_neg hcidr, if_neg (by simp [hpfx])]
      unfold findMapping
      dsimp only [ip4DestinationPortOrId]
      rw [findMatching4_updateById s.activeAddressMappings m.id m.ip4
        m.translatedPortOrId
        (fun x => { x with counters := x.counters.count6To4Packet 17 len6 })
        (fun x => ⟨rfl, rfl⟩), hfind4]
      dsimp only [Option.map]
      rw [if_pos (rfl : m.id = m.id)]
      exact ⟨_, rfl, hm6.1, hm6.2⟩
  · -- TCP out, UDP reply
    have hout : translateFromIp6 cfg s now1 rands
        (Message.ip6 ⟨s6, d6, hop6, len6, L4.tcp sp dp⟩)
        = ({ s with
              counters := s.counters.count6To4Packet 6 len6
              activeAddressMappings := updateById s.activeAddressMappings m.id fun x =>
                { x with counters := x.counters.count6To4Packet 6 len6 } },
          Message.ip4 ⟨m.ip4, extractFromIp6Address s.nat64Pfx.length d6, hop6, 0,
            20 + len6, L4.tcp m.translatedPortOrId dp⟩,
          Result.kForward) := by
      unfold translateFromIp6
      rw [if_neg (by simp [hcidr, hpfx])]
      dsimp only
      rw [if_neg (by simp [hmatch])]
      unfold findOrAllocateMapping
      dsimp only [ip6SourcePortOrId]
      rw [hfind6]
      rfl
    refine ⟨by rw [hout], ⟨⟨m.ip4, extractFromIp6Address s.nat64Pfx.length d6, hop6, 0,
      20 + len6, L4.tcp m.translatedPortOrId dp⟩, by rw [hout], rfl, rfl⟩, ?_, ?_⟩
    · rw [hout]
      unfold translateToIp6
      dsimp only
      rw [if_neg hcidr, if_neg (by simp [hpfx])]
      unfold findMapping
      dsimp only [ip4DestinationPortOrId]
      rw [findMatching4_updateById s.activeAddressMappings m.id m.ip4
        m.translatedPortOrId
        (fun x => { x with counters := x.counters.count6To4Packet 6 len6 })
        (fun x => ⟨rfl, rfl⟩), hfind4]
      dsimp only [Option.map]
    · rw [hout]
      unfold translateToIp6
      dsimp only
      rw [if_neg hcidr, if_neg (by simp [hpfx])]
      unfold findMapping
      dsimp only [ip4DestinationPortOrId]
      rw [findMatching4_updateById s.activeAddressMappings m.id m.ip4
        m.translatedPortOrId
        (fun x => { x with counters := x.counters.count6To4Packet 6 len6 })
        (fun x => ⟨rfl, rfl⟩), hfind4]
      dsimp only [Option.map]
      rw [if_pos (rfl : m.id = m.id)]
      exact ⟨_, rfl, hm6.1, hm6.2⟩
  · -- TCP out, TCP reply
    have hout : translateFromIp6 cfg s now1 rands
        (Message.ip6 ⟨s6, d6, hop6, len6, L4.tcp sp dp⟩)
        = ({ s with
              counters := s.counters.count6To4Packet 6 len6
              activeAddressMappings := updateById s.activeAddressMappings m.id fun x =>
                { x with counters := x.counters.count6To4Packet 6 len6 } },
          Message.ip4 ⟨m.ip4, extractFromIp6Address s.nat64Pfx.length d6, hop6, 0,
            20 + len6, L4.tcp m.translatedPortOrId dp⟩,
          Result.kForward) := by
      unfold translateFromIp6
      rw [if_neg (by simp [hcidr, hpfx])]
      dsimp only
      rw [if_neg (by simp [hmatch])]
      unfold findOrAllocateMapping
      dsimp only [ip6SourcePortOrId]
      rw [hfind6]
      rfl
    refine ⟨by rw [hout], ⟨⟨m.ip4, extractFromIp6Address s.nat64Pfx.length d6, hop6, 0,
      20 + len6, L4.tcp m.translatedPortOrId dp⟩, by rw [hout], rfl, rfl⟩, ?_, ?_⟩
    · rw [hout]
      unfold translateToIp6
      dsimp only
      rw [if_neg hcidr, if_neg (by simp [hpfx])]
      unfold findMapping
      dsimp only [ip4DestinationPortOrId]
      rw [findMatching4_updateById s.activeAddressMappings m.id m.ip4
        m.translatedPortOrId
        (fun x => { x with counters := x.counters.count6To4Packet 6 len6 })
        (fun x => ⟨rfl, rfl⟩), hfind4]
      dsimp only [Option.map]
    · rw [hout]
      unfold translateToIp6
      dsimp only
      rw [if_neg hcidr, if_neg (by simp [hpfx])]
      unfold findMapping
      dsimp only [ip4DestinationPortOrId]
      rw [findMatching4_updateById s.activeAddressMappings m.id m.ip4
        m.translatedPortOrId
        (fun x => { x with counters := x.counters.count6To4Packet 6 len6 })
        (fun x => ⟨rfl, rfl⟩), hfind4]
      dsimp only [Option.map]
      rw [if_pos (rfl : m.id = m.id)]
      exact ⟨_, rfl, hm6.1, hm6.2⟩

/-- C4 witness: the round trip at a concrete established UDP mapping
(2001:db8::1 port 33000 behind 192.0.2.2 port 49152, block 64:ff9b::/96). -/
theorem outbound_inbound_round_trip_witness :
    (translateFromIp6 ⟨2, 30, 60000, 7200000⟩
        ⟨true, .kStateActive, ⟨0x0064ff9b000000000000000000000000, 96⟩,
          ⟨0xC0000200, 24⟩,
          [⟨1, 0x20010DB8000000000000000000000001, 0xC0000202, 33000, 49152,
            7200000, ProtocolCounters.clear⟩],
          [0xC0000201], 1, ProtocolCounters.clear, ErrorCounters.clear⟩
        3 [] (.ip6 ⟨0x20010DB8000000000000000000000001,
          0x0064ff9b0000000000000000CB007105, 64, 8, L4.udp 33000 4242⟩)).2.2
      = Result.kForward ∧
    (∃ p4 : Ip4Packet,
      (translateFromIp6 ⟨2, 30, 60000, 7200000⟩
        ⟨true, .kStateActive, ⟨0x0064ff9b000000000000000000000000, 96⟩,
          ⟨0xC0000200, 24⟩,
          [⟨1, 0x20010DB8000000000000000000000001, 0xC0000202, 33000, 49152,
            7200000, ProtocolCounters.clear⟩],
          [0xC0000201], 1, ProtocolCounters.clear, ErrorCounters.clear⟩
        3 [] (.ip6 ⟨0x20010DB8000000000000000000000001,
          0x0064ff9b0000000000000000CB007105, 64, 8, L4.udp 33000 4242⟩)).2.1
        = Message.ip4 p4 ∧
      p4.dst = extractFromIp6Address
        (⟨(0x0064ff9b000000000000000000000000 : Nat), 96⟩ : Ip6Pfx).length
        0x0064ff9b0000000000000000CB007105 ∧
      l4SrcPort p4.payload = 49152) ∧
    (translateToIp6 ⟨2, 30, 60000, 7200000⟩
        (translateFromIp6 ⟨2, 30, 60000, 7200000⟩
          ⟨true, .kStateActive, ⟨0x0064ff9b000000000000000000000000, 96⟩,
            ⟨0xC0000200, 24⟩,
            [⟨1, 0x20010DB8000000000000000000000001, 0xC0000202, 33000, 49152,
              7200000, ProtocolCounters.clear⟩],
            [0xC0000201], 1, ProtocolCounters.clear, ErrorCounters.clear⟩
          3 [] (.ip6 ⟨0x20010DB8000000000000000000000001,
            0x0064ff9b0000000000000000CB007105, 64, 8, L4.udp 33000 4242⟩)).1
        9 (.ip4 ⟨0xCB007105, 0xC0000202, 64, 0, 28, L4.udp 4242 49152⟩)).2.2
      = Result.kForward ∧
    (∃ p6 : Ip6Packet,
      (translateToIp6 ⟨2, 30, 60000, 7200000⟩
        (translateFromIp6 ⟨2, 30, 60000, 7200000⟩
          ⟨true, .kStateActive, ⟨0x0064ff9b000000000000000000000000, 96⟩,
            ⟨0xC0000200, 24⟩,
            [⟨1, 0x20010DB8000000000000000000000001, 0xC0000202, 33000, 49152,
              7200000, ProtocolCounters.clear⟩],
            [0xC0000201], 1, ProtocolCounters.clear, ErrorCounters.clear⟩
          3 [] (.ip6 ⟨0x20010DB8000000000000000000000001,
            0x0064ff9b0000000000000000CB007105, 64, 8, L4.udp 33000 4242⟩)).1
        9 (.ip4 ⟨0xCB007105, 0xC0000202, 64, 0, 28, L4.udp 4242 49152⟩)).2.1
        = Message.ip6 p6 ∧
      p6.dst = 0x20010DB8000000000000000000000001 ∧
      l4DstPort p6.payload = 33000) := by
  exact outbound_inbound_round_trip ⟨2, 30, 60000, 7200000⟩
    ⟨true, .kStateActive, ⟨0x0064ff9b000000000000000000000000, 96⟩,
      ⟨0xC0000200, 24⟩,
      [⟨1, 0x20010DB8000000000000000000000001, 0xC0000202, 33000, 49152,
        7200000, ProtocolCounters.clear⟩],
      [0xC0000201], 1, ProtocolCounters.clear, ErrorCounters.clear⟩
    ⟨1, 0x20010DB8000000000000000000000001, 0xC0000202, 33000, 49152,
      7200000, ProtocolCounters.clear⟩
    ⟨0x20010DB8000000000000000000000001,
      0x0064ff9b0000000000000000CB007105, 64, 8, L4.udp 33000 4242⟩
    ⟨0xCB007105, 0xC0000202, 64, 0, 28, L4.udp 4242 49152⟩
    33000 4242 4242 3 9 []
    (by decide) (by decide) (by decide) (Or.inl rfl)
    (by decide) (by decide) rfl (Or.inl rfl)

/-! ### C10 -/

/-- Releasing a mapping commutes with flipping the enabled flag. -/
theorem releaseMapping_enabled (cfg : Config) (s : TranslatorState)
    (m : AddressMapping) (b : Bool) :
    releaseMapping cfg { s with enabled := b } m
      = { releaseMapping cfg s m with enabled := b } := by
  unfold releaseMapping
  dsimp only
  by_cases hc : s.ip4Cidr.length ≤ cfg.maxCidrLenForValidAddrPool
  · rw [if_pos hc, if_pos hc]
  · rw [if_neg hc, if_neg hc]

/-- Releasing a batch commutes with flipping the enabled flag. -/
theorem releaseMappings_enabled (cfg : Config) (ms : List AddressMapping) :
    ∀ (s : TranslatorState) (b : Bool),
    releaseMappings cfg { s with enabled := b } ms
      = { releaseMappings cfg s ms with enabled := b } := by
  induction ms with
  | nil => exact fun s b => rfl
  | cons m ms ih =>
    intro s b
    rw [releaseMappings_cons, releaseMappings_cons, releaseMapping_enabled,
      ih (releaseMapping cfg s m) b]

/-- The expiry sweep commutes with flipping the enabled flag. -/
theorem releaseExpiredMappings_enabled (cfg : Config) (s : TranslatorState)
    (now : Nat) (b : Bool) :
    releaseExpiredMappings cfg { s with enabled := b } now
      = ({ (releaseExpiredMappings cfg s now).1 with enabled := b },
        (releaseExpiredMappings cfg s now).2) := by
  unfold releaseExpiredMappings
  dsimp only
  rw [show ({ s with
      enabled := b
      activeAddressMappings :=
        s.activeAddressMappings.filter (fun m => ¬ m.expiry < now) } : TranslatorState)
      = { { s with activeAddressMappings :=
          s.activeAddressMappings.filter (fun m => ¬ m.expiry < now) } with
          enabled := b } from rfl]
  rw [releaseMappings_enabled]

/-- Address selection commutes with flipping the enabled flag. -/
theorem selectIp4Address_enabled (cfg : Config) (s : TranslatorState)
    (now : Nat) (b : Bool) :
    selectIp4Address cfg { s with enabled := b } now
      = ({ (selectIp4Address cfg s now).1 with enabled := b },
        (selectIp4Address cfg s now).2) := by
  unfold selectIp4Address
  dsimp only
  by_cases hA : cfg.maxCidrLenForValidAddrPool < s.ip4Cidr.length
  · rw [if_pos hA, if_pos hA]
    cases s.ip4AddressPool.head? <;> rfl
  · rw [if_neg hA, if_neg hA]
    by_cases hB : s.ip4AddressPool.isEmpty
    · rw [if_pos hB, if_pos hB]
      rw [releaseExpiredMappings_enabled]
      dsimp only
      by_cases hn : (releaseExpiredMappings cfg s now).2 = 0
      · rw [if_pos hn, if_pos hn]
      · rw [if_neg hn, if_neg hn]
        cases popBack (releaseExpiredMappings cfg s now).1.ip4AddressPool with
        | none => rfl
        | some p => cases p with | mk a rest => rfl
    · rw [if_neg hB, if_neg hB]
      cases popBack s.ip4AddressPool with
      | none => rfl
      | some p => cases p with | mk a rest => rfl

/-- Allocation commutes with flipping the enabled flag. -/
theorem allocateMapping_enabled (cfg : Config) (s : TranslatorState) (now : Nat)
    (rands : List Nat) (h : Ip6Packet) (b : Bool) :
    allocateMapping cfg { s with enabled := b } now rands h
      = ({ (allocateMapping cfg s now rands h).1 with enabled := b },
        (allocateMapping cfg s now rands h).2) := by
  unfold allocateMapping
  rw [selectIp4Address_enabled]
  cases hs : selectIp4Address cfg s now with
  | mk s1 addr? =>
    dsimp only
    cases addr? with
    | none => rfl
    | some p =>
      cases p with
      | mk a pool1 =>
        dsimp only
        by_cases hlen : s1.activeAddressMappings.length < cfg.addressMappingPoolSize
        · rw [if_pos hlen, if_pos hlen]
          cases allocateSourcePort s1.activeAddressMappings (ip6SourcePortOrId h) rands with
          | none => rfl
          | some tp => rfl
        · rw [if_neg hlen, if_neg hlen]

/-- Lookup-or-allocate commutes with flipping the enabled flag. -/
theorem findOrAllocateMapping_enabled (cfg : Config) (s : TranslatorState)
    (now : Nat) (rands : List Nat) (h : Ip6Packet) (b : Bool) :
    findOrAllocateMapping cfg { s with enabled := b } now rands h
      = ({ (findOrAllocateMapping cfg s now rands h).1 with enabled := b },
        (findOrAllocateMapping cfg s now rands h).2) := by
  unfold findOrAllocateMapping
  dsimp only
  cases findMatching6 s.activeAddressMappings h.src (ip6SourcePortOrId h) with
  | some m => rfl
  | none => exact allocateMapping_enabled cfg s now rands h b

/-- The inbound lookup commutes with flipping the enabled flag. -/
theorem findMapping_enabled (cfg : Config) (s : TranslatorState) (now : Nat)
    (h : Ip4Packet) (b : Bool) :
    findMapping cfg { s with enabled := b } now h
      = ({ (findMapping cfg s now h).1 with enabled := b },
        (findMapping cfg s now h).2) := by
  unfold findMapping
  dsimp only
  cases findMatching4 s.activeAddressMappings h.dst (ip4DestinationPortOrId h) with
  | none => rfl
  | some m => rfl

/-- Outbound translation never reads the enabled flag: its outputs at a
state with the flag flipped are the same, the flag passing through. -/
theorem translateFromIp6_enabled (cfg : Config) (s : TranslatorState) (now : Nat)
    (rands : List Nat) (msg : Message) (b : Bool) :
    translateFromIp6 cfg { s with enabled := b } now rands msg
      = ({ (translateFromIp6 cfg s now rands msg).1 with enabled := b },
        (translateFromIp6 cfg s now rands msg).2.1,
        (translateFromIp6 cfg s now rands msg).2.2) := by
  unfold translateFromIp6
  dsimp only
  by_cases h0 : s.ip4Cidr.length = 0 ∨ ¬ isValidNat64 s.nat64Pfx
  · rw [if_pos h0, if_pos h0]
  · rw [if_neg h0, if_neg h0]
    cases msg with
    | ip4 p => rfl
    | malformed => rfl
    | ip6 h =>
      dsimp only
      by_cases hm : ¬ matchesPfx h.dst s.nat64Pfx
      · rw [if_pos hm, if_pos hm]
      · rw [if_neg hm, if_neg hm]
        rw [findOrAllocateMapping_enabled]
        cases hf : findOrAllocateMapping cfg s now rands h with
        | mk s1 m? =>
          dsimp only
          cases m? with
          | none => rfl
          | some m =>
            dsimp only
            cases h.payload with
            | udp sp dp => rfl
            | tcp sp dp => rfl
            | icmp t i =>
              dsimp only
              cases translateIcmp6 t i m.translatedPortOrId with
              | none => rfl
              | some r => cases r with | mk t4 i4 => rfl
            | other n => rfl

/-- Inbound translation never reads the enabled flag. -/
theorem translateToIp6_enabled (cfg : Config) (s : TranslatorState) (now : Nat)
    (msg : Message) (b : Bool) :
    translateToIp6 cfg { s with enabled := b } now msg
      = ({ (translateToIp6 cfg s now msg).1 with enabled := b },
        (translateToIp6 cfg s now msg).2.1,
        (translateToIp6 cfg s now msg).2.2) := by
  unfold translateToIp6
  cases msg with
  | ip6 p => rfl
  | malformed =>
    dsimp only
    by_cases h0 : s.ip4Cidr.length = 0
    · rw [if_pos h0, if_pos h0]
    · rw [if_neg h0, if_neg h0]
      by_cases h1 : ¬ isValidNat64 s.nat64Pfx
      · rw [if_pos h1, if_pos h1]
      · rw [if_neg h1, if_neg h1]
  | ip4 h =>
    dsimp only
    by_cases h0 : s.ip4Cidr.length = 0
    · rw [if_pos h0, if_pos h0]
    · rw [if_neg h0, if_neg h0]
      by_cases h1 : ¬ isValidNat64 s.nat64Pfx
      · rw [if_pos h1, if_pos h1]
      · rw [if_neg h1, if_neg h1]
        rw [findMapping_enabled]
        cases hf : findMapping cfg s now h with
        | mk s1 m? =>
          dsimp only
          cases m? with
          | none => rfl
          | some m =>
            dsimp only
            cases h.payload with
            | udp sp dp => rfl
            | tcp sp dp => rfl
            | icmp t i =>
              dsimp only
              cases translateIcmp4 t i m.srcPortOrId with
              | none => rfl
              | some r => cases r with | mk t6 i6 => rfl
            | other n => rfl

/-- C10: the data plane never consults the enabled flag.  Both translation
functions commute with flipping the flag (only the flag itself passes
through to the result state), and concretely: with the flag off (public
state `Disabled`) but a CIDR and a valid NAT64 block configured, an
outbound matching UDP packet is still translated — `Forward` with a
mapping allocated — and the matching IPv4 reply also comes back
`Forward`. -/
theorem data_plane_ignores_enabled_flag :
    (∀ (cfg : Config) (s : TranslatorState) (b : Bool) (now : Nat)
        (rands : List Nat) (msg : Message),
      translateFromIp6 cfg { s with enabled := b } now rands msg
        = ({ (translateFromIp6 cfg s now rands msg).1 with enabled := b },
          (translateFromIp6 cfg s now rands msg).2.1,
          (translateFromIp6 cfg s now rands msg).2.2)) ∧
    (∀ (cfg : Config) (s : TranslatorState) (b : Bool) (now : Nat) (msg : Message),
      translateToIp6 cfg { s with enabled := b } now msg
        = ({ (translateToIp6 cfg s now msg).1 with enabled := b },
          (translateToIp6 cfg s now msg).2.1,
          (translateToIp6 cfg s now msg).2.2)) ∧
    (runOps ⟨2, 30, 60000, 7200000⟩ (initState 0)
        [Op.setIp4Cidr ⟨0xC0000200, 24⟩,
         Op.setNat64Pfx ⟨0x0064ff9b000000000000000000000000, 96⟩]).enabled
      = false ∧
    (runOps ⟨2, 30, 60000, 7200000⟩ (initState 0)
        [Op.setIp4Cidr ⟨0xC0000200, 24⟩,
         Op.setNat64Pfx ⟨0x0064ff9b000000000000000000000000, 96⟩]).state
      = State.kStateDisabled ∧
    (translateFromIp6 ⟨2, 30, 60000, 7200000⟩
        (runOps ⟨2, 30, 60000, 7200000⟩ (initState 0)
          [Op.setIp4Cidr ⟨0xC0000200, 24⟩,
           Op.setNat64Pfx ⟨0x0064ff9b000000000000000000000000, 96⟩])
        0 [0] (.ip6 ⟨0x20010DB8000000000000000000000001,
          0x0064ff9b0000000000000000CB007105, 64, 8, L4.udp 33000 4242⟩)).2.2
      = Result.kForward ∧
    (translateFromIp6 ⟨2, 30, 60000, 7200000⟩
        (runOps ⟨2, 30, 60000, 7200000⟩ (initState 0)
          [Op.setIp4Cidr ⟨0xC0000200, 24⟩,
           Op.setNat64Pfx ⟨0x0064ff9b000000000000000000000000, 96⟩])
        0 [0] (.ip6 ⟨0x20010DB8000000000000000000000001,
          0x0064ff9b0000000000000000CB007105, 64, 8,
          L4.udp 33000 4242⟩)).1.activeAddressMappings.length = 1 ∧
    (translateToIp6 ⟨2, 30, 60000, 7200000⟩
        (translateFromIp6 ⟨2, 30, 60000, 7200000⟩
          (runOps ⟨2, 30, 60000, 7200000⟩ (initState 0)
            [Op.setIp4Cidr ⟨0xC0000200, 24⟩,
             Op.setNat64Pfx ⟨0x0064ff9b000000000000000000000000, 96⟩])
          0 [0] (.ip6 ⟨0x20010DB8000000000000000000000001,
            0x0064ff9b0000000000000000CB007105, 64, 8, L4.udp 33000 4242⟩)).1
        9 (.ip4 ⟨0xCB007105, 0xC0000202, 64, 0, 28, L4.udp 4242 49152⟩)).2.2
      = Result.kForward := by
  refine ⟨(fun cfg s b now rands msg => translateFromIp6_enabled cfg s now rands msg b),
    (fun cfg s b now msg => translateToIp6_enabled cfg s now msg b),
    ?_, ?_, ?_, ?_, ?_⟩ <;> decide

end Nat64
